import Mathlib

/-!
# Blast actor model (`BlastActorImpl.cpp`)

A shallow embedding of `Blast::BlastActorImpl`: its constructor and destructor,
`Spawn`, `AddShapes`, `CalculateColliderConfiguration`, `Damage` and the accessors.

* Scalars live in an arbitrary commutative ring `R` (exact arithmetic).
* 32-bit unsigned values are natural numbers; the one addition of the code
  (`chunk.firstSubchunkIndex + i`) is reduced modulo `2 ^ 32`.
* A raw array pointer is `Option (Nat → _)`: `none` is the null pointer, and
  reading element `i` is function application. Every read is recorded in
  `World.reads`, so that bounds are properties of the recorded indices.
* Requests to the collaborators of the actor (physics system, entity, transform
  bus, rigid body, toolkit actor) are recorded in order in `World.calls`. What a
  collaborator answers is a function of the requests issued so far (`Env`).
* `AZ_Assert` does not alter control flow; a failed assertion is recorded in
  `World.asserts`.
* Dereferencing a null pointer the code obtained from a bus query ends the run in a
  `Fault`.
* Where C++ leaves the order of two calls within one expression open (the operands of
  `rigidBody->GetTransform() * rigidBody->GetCenterOfMassLocal()` in `Spawn`), the
  order is a parameter, and what is proved holds for both orders.
-/

namespace Blast

/-! ## Math types -/

/-- AZ::Vector3 over exact scalars. -/
structure Vector3 (R : Type) where
  x : R
  y : R
  z : R
deriving DecidableEq

/-- AZ::Quaternion over exact scalars. -/
structure Quaternion (R : Type) where
  x : R
  y : R
  z : R
  w : R
deriving DecidableEq

/-- AZ::Transform: three basis vectors (the columns of the 3x3 part) and a position. -/
structure Transform (R : Type) where
  basisX : Vector3 R
  basisY : Vector3 R
  basisZ : Vector3 R
  position : Vector3 R
deriving DecidableEq

/-- physx::PxTransform: a rotation quaternion and a position. -/
structure PxTransform (R : Type) where
  q : Quaternion R
  p : Vector3 R
deriving DecidableEq

section MathOps
variable {R : Type} [CommRing R]

/-- Vector sum, `operator+` of AZ::Vector3. -/
def Vector3.add (a b : Vector3 R) : Vector3 R :=
  ⟨a.x + b.x, a.y + b.y, a.z + b.z⟩

/-- Vector difference, `operator-` of AZ::Vector3. -/
def Vector3.sub (a b : Vector3 R) : Vector3 R :=
  ⟨a.x - b.x, a.y - b.y, a.z - b.z⟩

/-- Scaling of a vector by a scalar. -/
def Vector3.scale (k : R) (a : Vector3 R) : Vector3 R :=
  ⟨k * a.x, k * a.y, k * a.z⟩

/-- Modelled from the spec: AZ::Vector3::Cross is not among the sources; it is the
cross product `×` of the spec's velocity formula, `this × rhs`. -/
def Vector3.Cross (a rhs : Vector3 R) : Vector3 R :=
  ⟨a.y * rhs.z - a.z * rhs.y, a.z * rhs.x - a.x * rhs.z, a.x * rhs.y - a.y * rhs.x⟩

instance : Add (Vector3 R) := ⟨Vector3.add⟩
instance : Sub (Vector3 R) := ⟨Vector3.sub⟩

/-- Modelled from the spec: AZ::Transform::CreateFromQuaternionAndTranslation is not
among the sources; the spec's world transform built from an orientation and a
position is the rotation matrix of the quaternion together with the translation. -/
def Transform.CreateFromQuaternionAndTranslation (q : Quaternion R) (p : Vector3 R) :
    Transform R :=
  { basisX := ⟨1 - 2 * (q.y * q.y + q.z * q.z), 2 * (q.x * q.y + q.z * q.w),
               2 * (q.x * q.z - q.y * q.w)⟩
    basisY := ⟨2 * (q.x * q.y - q.z * q.w), 1 - 2 * (q.x * q.x + q.z * q.z),
               2 * (q.y * q.z + q.x * q.w)⟩
    basisZ := ⟨2 * (q.x * q.z + q.y * q.w), 2 * (q.y * q.z - q.x * q.w),
               1 - 2 * (q.x * q.x + q.y * q.y)⟩
    position := p }

/-- Modelled from the spec: AZ::Transform::MultiplyByScale is not among the sources;
the spec's (possibly non-uniform) scale multiplies each basis vector by the matching
component of the scale. -/
def Transform.MultiplyByScale (t : Transform R) (scale : Vector3 R) : Transform R :=
  { t with
    basisX := Vector3.scale scale.x t.basisX
    basisY := Vector3.scale scale.y t.basisY
    basisZ := Vector3.scale scale.z t.basisZ }

/-- AZ::Transform::GetPosition. -/
def Transform.GetPosition (t : Transform R) : Vector3 R := t.position

/-- Modelled from the spec: `operator*` of AZ::Transform on a vector is not among the
sources; the transform applied to a point is the linear part applied to the point,
plus the position. -/
def Transform.apply (t : Transform R) (v : Vector3 R) : Vector3 R :=
  Vector3.scale v.x t.basisX + Vector3.scale v.y t.basisY + Vector3.scale v.z t.basisZ
    + t.position

/-- Modelled from the spec: the product of two AZ::Transform values is not among the
sources; `a.compose b` is the spec's composition, `b` followed by `a`. -/
def Transform.compose (a b : Transform R) : Transform R :=
  { basisX := a.apply b.basisX - a.position
    basisY := a.apply b.basisY - a.position
    basisZ := a.apply b.basisZ - a.position
    position := a.apply b.position }

/-- Modelled from the spec: PxMathConvert for a PxTransform (PhysX/MathConversion.h)
is not among the sources; the subchunk transform keeps its rotation and position. -/
def PxMathConvert (t : PxTransform R) : Transform R :=
  Transform.CreateFromQuaternionAndTranslation t.q t.p

end MathOps

/-! ## Asset and configuration data -/

/-- Nv::Blast::ExtPxChunk; both indices are `uint32_t`. -/
structure ExtPxChunk where
  firstSubchunkIndex : Nat
  subchunkCount : Nat
  isStatic : Bool
deriving DecidableEq

/-- physx::PxConvexMeshGeometry, reduced to its convex mesh pointer. -/
structure PxConvexMeshGeometry where
  convexMesh : Nat
deriving DecidableEq

/-- Nv::Blast::ExtPxSubchunk. -/
structure ExtPxSubchunk (R : Type) where
  transform : PxTransform R
  geometry : PxConvexMeshGeometry
deriving DecidableEq

/-- Nv::Blast::ExtPxAsset, through the four accessors `AddShapes` uses. The two array
accessors return a raw pointer (`none` when null); the two counts are `uint32_t`. -/
structure ExtPxAsset (R : Type) where
  getChunks : Option (Nat → ExtPxChunk)
  getSubchunks : Option (Nat → ExtPxSubchunk R)
  getChunkCount : Nat
  getSubchunkCount : Nat

/-- Physics::MaterialId. -/
abbrev MaterialId := Nat

/-- Physics::MaterialSelection, as far as the two setters used here write it. -/
structure MaterialSelection where
  m_materialLibraryId : Nat
  m_materialId : MaterialId
deriving DecidableEq

/-- Modelled from the spec: Physics::MaterialSelection::SetMaterialLibrary is not among
the sources; it stores the material reference of the collider configuration. -/
def MaterialSelection.SetMaterialLibrary (s : MaterialSelection) (id : Nat) :
    MaterialSelection :=
  { s with m_materialLibraryId := id }

/-- Modelled from the spec: Physics::MaterialSelection::SetMaterialId is not among the
sources; it stores the per-call material id. -/
def MaterialSelection.SetMaterialId (s : MaterialSelection) (id : MaterialId) :
    MaterialSelection :=
  { s with m_materialId := id }

/-- Physics::ColliderConfiguration: the fields `CalculateColliderConfiguration` writes. -/
structure ColliderConfiguration (R : Type) where
  m_position : Vector3 R
  m_rotation : Quaternion R
  m_isExclusive : Bool
  m_materialSelection : MaterialSelection
  m_collisionGroupId : Nat
  m_collisionLayer : Nat
  m_isInSceneQueries : Bool
  m_isSimulated : Bool
  m_tag : String
deriving DecidableEq

/-- Physics::NativeShapeConfiguration. -/
structure NativeShapeConfiguration (R : Type) where
  m_nativeShapePtr : Nat
  m_nativeShapeScale : Vector3 R
deriving DecidableEq

/-- The per-family actor configuration returned by `BlastFamily::GetActorConfiguration`. -/
structure BlastActorConfiguration where
  m_collisionLayer : Nat
  m_collisionGroupId : Nat
  m_isSimulated : Bool
  m_isInSceneQueries : Bool
  m_isCcdEnabled : Bool
  m_tag : String
deriving DecidableEq

/-- BlastFamily, through the two accessors the actor uses. -/
structure BlastFamily (R : Type) where
  GetPxAsset : ExtPxAsset R
  GetActorConfiguration : BlastActorConfiguration

/-- Physics::RigidBodyConfiguration: the fields the actor reads. -/
structure RigidBodyConfiguration (R : Type) where
  m_orientation : Quaternion R
  m_position : Vector3 R
  m_scale : Vector3 R
  m_initialAngularVelocity : Vector3 R
deriving DecidableEq

/-- NvBlastDamageProgram: two shader function pointers. -/
structure NvBlastDamageProgram where
  graphShaderFunction : Nat
  subgraphShaderFunction : Nat
deriving DecidableEq

/-! ## Collaborators -/

/-- A request issued to a collaborator of the actor. Entities, rigid bodies and toolkit
actors are named by a handle. -/
inductive Call (R : Type) where
  | CreateShape (c : ColliderConfiguration R) (s : NativeShapeConfiguration R)
  | Init (entity : Nat)
  | Activate (entity : Nat)
  | SetWorldTM (entity : Nat) (t : Transform R)
  | GetRigidBody (entity : Nat)
  | GetWorldBody (entity : Nat)
  | SetTransform (rigidBody : Nat) (t : Transform R)
  | GetTransform (rigidBody : Nat)
  | GetCenterOfMassLocal (rigidBody : Nat)
  | SetLinearVelocity (entity : Nat) (v : Vector3 R)
  | SetAngularVelocity (entity : Nat) (v : Vector3 R)
  | damage (tkActor : Nat) (program : NvBlastDamageProgram) (programParams : Nat)
deriving DecidableEq

/-- A read of the asset's chunk array or subchunk array at an index. -/
inductive Read where
  | chunk (i : Nat)
  | subchunk (i : Nat)
deriving DecidableEq

/-- What the collaborators answer, as a function of the requests issued before. A
shape or rigid body pointer is `none` when null. -/
structure Env (R : Type) where
  CreateShape : List (Call R) → ColliderConfiguration R → NativeShapeConfiguration R →
    Option Nat
  GetDefaultMaterialLibraryAssetId : List (Call R) → Nat
  QuaternionCreateFromTransform : Transform R → Quaternion R
  GetRigidBody : List (Call R) → Nat → Option Nat
  GetWorldBody : List (Call R) → Nat → Option Nat
  GetTransform : List (Call R) → Nat → Transform R
  GetCenterOfMassLocal : List (Call R) → Nat → Vector3 R

/-- Everything outside the actor object: the requests issued so far, the asset reads
made so far, the failed assertions, and the `userData` slot of each toolkit actor
(`none` is `nullptr`, `some p` the address of an actor). -/
structure World (R : Type) where
  calls : List (Call R)
  reads : List Read
  asserts : List String
  userData : Nat → Option Nat

/-- Record a request. -/
def World.call {R : Type} (w : World R) (c : Call R) : World R :=
  { w with calls := w.calls ++ [c] }

/-- Record an asset read. -/
def World.read {R : Type} (w : World R) (r : Read) : World R :=
  { w with reads := w.reads ++ [r] }

/-- AZ_Assert: record the message when the condition is false; never alters control flow. -/
def World.AZ_Assert {R : Type} (w : World R) (cond : Bool) (msg : String) : World R :=
  if cond then w else { w with asserts := w.asserts ++ [msg] }

/-! ## The actor -/

/-- ShapesProvider: the actor's shape collection. A null shape pointer is `none`. -/
structure ShapesProvider (R : Type) where
  m_entityId : Nat
  m_bodyConfiguration : RigidBodyConfiguration R
  m_shapes : List (Option Nat)

/-- Modelled from the spec: ShapesProvider::AddShape (Actor/ShapesProvider.h) is not
among the sources; "the produced shapes are appended to the Actor's shape collection". -/
def ShapesProvider.AddShape {R : Type} (p : ShapesProvider R) (shape : Option Nat) :
    ShapesProvider R :=
  { p with m_shapes := p.m_shapes ++ [shape] }

/-- BlastActorDesc: the constructor's argument. -/
structure BlastActorDesc (R : Type) where
  m_family : BlastFamily R
  m_tkActor : Nat
  m_entity : Nat
  m_chunkIndices : List Nat
  m_isLeafChunk : Bool
  m_isStatic : Bool
  m_physicsMaterialId : MaterialId
  m_parentLinearVelocity : Vector3 R
  m_parentCenterOfMass : Vector3 R
  m_bodyConfiguration : RigidBodyConfiguration R

/-- BlastActorImpl: the members of the actor object. -/
structure BlastActorImpl (R : Type) where
  m_family : BlastFamily R
  m_tkActor : Nat
  m_entity : Nat
  m_chunkIndices : List Nat
  m_isLeafChunk : Bool
  m_isStatic : Bool
  m_physicsMaterialId : MaterialId
  m_parentLinearVelocity : Vector3 R
  m_parentCenterOfMass : Vector3 R
  m_bodyConfiguration : RigidBodyConfiguration R
  m_shapesProvider : ShapesProvider R

/-- A fault that ends the program. -/
inductive Fault where
  | nullDereference
deriving DecidableEq

section Actor
variable {R : Type} [CommRing R]

/-- BlastActorImpl::BlastActorImpl, run for the object at address `this`. -/
def BlastActorImpl.construct (this : Nat) (desc : BlastActorDesc R) (w : World R) :
    BlastActorImpl R × World R :=
  let self : BlastActorImpl R :=
    { m_family := desc.m_family
      m_tkActor := desc.m_tkActor
      m_entity := desc.m_entity
      m_chunkIndices := desc.m_chunkIndices
      m_isLeafChunk := desc.m_isLeafChunk
      m_isStatic := desc.m_isStatic
      m_physicsMaterialId := desc.m_physicsMaterialId
      m_parentLinearVelocity := desc.m_parentLinearVelocity
      m_parentCenterOfMass := desc.m_parentCenterOfMass
      m_bodyConfiguration := desc.m_bodyConfiguration
      m_shapesProvider :=
        { m_entityId := desc.m_entity
          m_bodyConfiguration := desc.m_bodyConfiguration
          m_shapes := [] } }
  -- Store pointer to ourselves in the blast toolkit actor's userData
  let w := { w with userData := Function.update w.userData self.m_tkActor (some this) }
  (self, w)

/-- BlastActorImpl::~BlastActorImpl. -/
def BlastActorImpl.destruct (self : BlastActorImpl R) (w : World R) : World R :=
  { w with userData := Function.update w.userData self.m_tkActor none }

/-- BlastActorImpl::CalculateColliderConfiguration. -/
def BlastActorImpl.CalculateColliderConfiguration (E : Env R) (self : BlastActorImpl R)
    (w : World R) (transform : Transform R) (material : MaterialId) :
    ColliderConfiguration R :=
  let actorConfiguration := self.m_family.GetActorConfiguration
  let m_materialSelection : MaterialSelection := ⟨0, 0⟩
  let m_materialSelection :=
    m_materialSelection.SetMaterialLibrary (E.GetDefaultMaterialLibraryAssetId w.calls)
  let m_materialSelection := m_materialSelection.SetMaterialId material
  { m_position := transform.GetPosition
    m_rotation := E.QuaternionCreateFromTransform transform
    m_isExclusive := true
    m_materialSelection := m_materialSelection
    m_collisionGroupId := actorConfiguration.m_collisionGroupId
    m_collisionLayer := actorConfiguration.m_collisionLayer
    m_isInSceneQueries := actorConfiguration.m_isInSceneQueries
    m_isSimulated := actorConfiguration.m_isSimulated
    m_tag := actorConfiguration.m_tag }

/-- The body of the inner loop of `AddShapes`, for offset `i` within `chunk`. -/
def BlastActorImpl.AddShapes.subchunkBody (E : Env R) (pxSubchunks : Nat → ExtPxSubchunk R)
    (subchunkCount : Nat) (material : MaterialId) (chunk : ExtPxChunk)
    (st : BlastActorImpl R × World R) (i : Nat) : BlastActorImpl R × World R :=
  let self := st.1
  let w := st.2
  let subchunkIndex := (chunk.firstSubchunkIndex + i) % 2 ^ 32
  let w := w.AZ_Assert (decide (subchunkIndex < subchunkCount))
    "Out of bounds access to the BlastPxActor's PxSubchunks."
  if subchunkIndex ≥ subchunkCount then
    (self, w)
  else
    let w := w.read (Read.subchunk subchunkIndex)
    let subchunk := pxSubchunks subchunkIndex
    let transform := PxMathConvert subchunk.transform
    let colliderConfiguration := self.CalculateColliderConfiguration E w transform material
    let shapeConfiguration : NativeShapeConfiguration R :=
      { m_nativeShapePtr := subchunk.geometry.convexMesh
        m_nativeShapeScale := self.m_bodyConfiguration.m_scale }
    let shape := E.CreateShape w.calls colliderConfiguration shapeConfiguration
    let w := w.call (Call.CreateShape colliderConfiguration shapeConfiguration)
    let w := w.AZ_Assert shape.isSome "Failed to create Shape for BlastActor"
    ({ self with m_shapesProvider := self.m_shapesProvider.AddShape shape }, w)

/-- The body of the outer loop of `AddShapes`, for one entry of `chunkIndices`. -/
def BlastActorImpl.AddShapes.chunkBody (E : Env R) (pxChunks : Nat → ExtPxChunk)
    (pxSubchunks : Nat → ExtPxSubchunk R) (chunkCount subchunkCount : Nat)
    (material : MaterialId) (st : BlastActorImpl R × World R) (chunkId : Nat) :
    BlastActorImpl R × World R :=
  let self := st.1
  let w := st.2
  let w := w.AZ_Assert (decide (chunkId < chunkCount))
    "Out of bounds access to the BlastPxActor's PxChunks."
  if chunkId ≥ chunkCount then
    (self, w)
  else
    let w := w.read (Read.chunk chunkId)
    let chunk := pxChunks chunkId
    (List.range chunk.subchunkCount).foldl
      (BlastActorImpl.AddShapes.subchunkBody E pxSubchunks subchunkCount material chunk)
      (self, w)

/-- BlastActorImpl::AddShapes. -/
def BlastActorImpl.AddShapes (E : Env R) (self : BlastActorImpl R) (chunkIndices : List Nat)
    (asset : ExtPxAsset R) (material : MaterialId) (w : World R) :
    BlastActorImpl R × World R :=
  let pxChunks := asset.getChunks
  let pxSubchunks := asset.getSubchunks
  let chunkCount := asset.getChunkCount
  let subchunkCount := asset.getSubchunkCount
  let w := w.AZ_Assert pxChunks.isSome "Received asset with a null chunk array."
  let w := w.AZ_Assert pxSubchunks.isSome "Received asset with a null subchunk array."
  match pxChunks, pxSubchunks with
  | some pxChunks, some pxSubchunks =>
    chunkIndices.foldl
      (BlastActorImpl.AddShapes.chunkBody E pxChunks pxSubchunks chunkCount subchunkCount
        material)
      (self, w)
  | _, _ => (self, w)

/-- The transform `Spawn` builds from the body configuration. -/
def BlastActorImpl.spawnTransform (self : BlastActorImpl R) : Transform R :=
  (Transform.CreateFromQuaternionAndTranslation self.m_bodyConfiguration.m_orientation
    self.m_bodyConfiguration.m_position).MultiplyByScale self.m_bodyConfiguration.m_scale

/-- BlastActorImpl::Spawn. Dereferencing a null rigid body pointer is a fault. The two
operand calls of `rigidBody->GetTransform() * rigidBody->GetCenterOfMassLocal()` are
made in either order: `transformFirst` says which one the compiled program makes
first. -/
def BlastActorImpl.Spawn (E : Env R) (transformFirst : Bool) (self : BlastActorImpl R)
    (w : World R) : Except Fault (BlastActorImpl R × World R) :=
  -- Add shapes for each of the visible chunks
  let st := self.AddShapes E self.m_chunkIndices self.m_family.GetPxAsset
    self.m_physicsMaterialId w
  let self := st.1
  let w := st.2
  let w := w.call (Call.Init self.m_entity)
  let w := w.call (Call.Activate self.m_entity)
  let transform := self.spawnTransform
  let w := w.call (Call.SetWorldTM self.m_entity transform)
  -- Set initial velocities if we're not static
  if !self.m_isStatic then
    let rigidBody := E.GetRigidBody w.calls self.m_entity
    let w := w.call (Call.GetRigidBody self.m_entity)
    match rigidBody with
    | none => Except.error Fault.nullDereference
    | some rigidBody =>
      let w := w.call (Call.SetTransform rigidBody transform)
      let operands : Transform R × Vector3 R × World R :=
        if transformFirst then
          let rbTransform := E.GetTransform w.calls rigidBody
          let w := w.call (Call.GetTransform rigidBody)
          let comLocal := E.GetCenterOfMassLocal w.calls rigidBody
          let w := w.call (Call.GetCenterOfMassLocal rigidBody)
          (rbTransform, comLocal, w)
        else
          let comLocal := E.GetCenterOfMassLocal w.calls rigidBody
          let w := w.call (Call.GetCenterOfMassLocal rigidBody)
          let rbTransform := E.GetTransform w.calls rigidBody
          let w := w.call (Call.GetTransform rigidBody)
          (rbTransform, comLocal, w)
      let w := operands.2.2
      let com := operands.1.apply operands.2.1
      let linearVelocity := self.m_parentLinearVelocity
        + self.m_bodyConfiguration.m_initialAngularVelocity.Cross
            (com - self.m_parentCenterOfMass)
      let w := w.call (Call.SetLinearVelocity self.m_entity linearVelocity)
      let w := w.call
        (Call.SetAngularVelocity self.m_entity self.m_bodyConfiguration.m_initialAngularVelocity)
      Except.ok (self, w)
  else
    Except.ok (self, w)

/-- BlastActorImpl::GetWorldBody (both overloads): the world body of the entity, null
when there is none. -/
def BlastActorImpl.GetWorldBody (E : Env R) (self : BlastActorImpl R) (w : World R) :
    Option Nat × World R :=
  let worldBody := E.GetWorldBody w.calls self.m_entity
  (worldBody, w.call (Call.GetWorldBody self.m_entity))

/-- BlastActorImpl::GetTransform. Dereferencing a null world body pointer is a fault. -/
def BlastActorImpl.GetTransform (E : Env R) (self : BlastActorImpl R) (w : World R) :
    Except Fault (Transform R × World R) :=
  let r := self.GetWorldBody E w
  match r.1 with
  | none => Except.error Fault.nullDereference
  | some body => Except.ok (E.GetTransform r.2.calls body, r.2.call (Call.GetTransform body))

/-- BlastActorImpl::GetFamily. -/
def BlastActorImpl.GetFamily (self : BlastActorImpl R) : BlastFamily R := self.m_family

/-- BlastActorImpl::GetTkActor. -/
def BlastActorImpl.GetTkActor (self : BlastActorImpl R) : Nat := self.m_tkActor

/-- BlastActorImpl::GetChunkIndices. -/
def BlastActorImpl.GetChunkIndices (self : BlastActorImpl R) : List Nat := self.m_chunkIndices

/-- BlastActorImpl::IsStatic. -/
def BlastActorImpl.IsStatic (self : BlastActorImpl R) : Bool := self.m_isStatic

/-- BlastActorImpl::GetEntity. -/
def BlastActorImpl.GetEntity (self : BlastActorImpl R) : Nat := self.m_entity

/-- BlastActorImpl::Damage. -/
def BlastActorImpl.Damage (self : BlastActorImpl R) (program : NvBlastDamageProgram)
    (programParams : Nat) (w : World R) : BlastActorImpl R × World R :=
  (self, w.call (Call.damage self.m_tkActor program programParams))

end Actor

/-! ## Counting the shapes `AddShapes` creates -/

section Counting
variable {R : Type} [CommRing R]

/-- The subchunk index the inner loop computes for `chunk` at offset `i`: the 32-bit
sum `chunk.firstSubchunkIndex + i`. -/
def subchunkIndexAt (chunk : ExtPxChunk) (i : Nat) : Nat :=
  (chunk.firstSubchunkIndex + i) % 2 ^ 32

/-- The offsets `i < chunk.subchunkCount` whose 32-bit subchunk index is within
`subchunkCount`, in loop order. -/
def validOffsets (subchunkCount : Nat) (chunk : ExtPxChunk) : List Nat :=
  (List.range chunk.subchunkCount).filter
    (fun i => decide (subchunkIndexAt chunk i < subchunkCount))

/-- The pairs (list entry `chunkId`, offset `i`) with `chunkId < chunkCount`,
`i < chunks[chunkId].subchunkCount` and the 32-bit sum
`chunks[chunkId].firstSubchunkIndex + i` below `subchunkCount`, in loop order. -/
def validPairs (pxChunks : Nat → ExtPxChunk) (chunkCount subchunkCount : Nat)
    (chunkIndices : List Nat) : List (Nat × Nat) :=
  (chunkIndices.filter (fun c => decide (c < chunkCount))).flatMap
    (fun c => (validOffsets subchunkCount (pxChunks c)).map (fun i => (c, i)))

/-- The subchunk index read for a pair of `validPairs`. -/
def pairIndex (pxChunks : Nat → ExtPxChunk) (p : Nat × Nat) : Nat :=
  subchunkIndexAt (pxChunks p.1) p.2

/-- What `AddShapes` does for one subchunk index that passed the bounds check: build
the two configurations, request the shape, hand the result to the shapes provider. -/
def shapeStep (E : Env R) (pxSubchunks : Nat → ExtPxSubchunk R) (material : MaterialId)
    (st : BlastActorImpl R × World R) (j : Nat) : BlastActorImpl R × World R :=
  let cc := st.1.CalculateColliderConfiguration E st.2
    (PxMathConvert (pxSubchunks j).transform) material
  let sc : NativeShapeConfiguration R :=
    { m_nativeShapePtr := (pxSubchunks j).geometry.convexMesh
      m_nativeShapeScale := st.1.m_bodyConfiguration.m_scale }
  ({ st.1 with m_shapesProvider := st.1.m_shapesProvider.AddShape (E.CreateShape st.2.calls cc sc) },
    st.2.call (Call.CreateShape cc sc))

/-- The reads `AddShapes` makes for a list of chunk indices, in order. -/
def expectedReads (pxChunks : Nat → ExtPxChunk) (chunkCount subchunkCount : Nat)
    (chunkIndices : List Nat) : List Read :=
  (chunkIndices.filter (fun c => decide (c < chunkCount))).flatMap
    (fun c => Read.chunk c ::
      (validOffsets subchunkCount (pxChunks c)).map
        (fun i => Read.subchunk (subchunkIndexAt (pxChunks c) i)))

/-- The actor with its shape collection replaced, all other members kept. -/
def BlastActorImpl.withShapes (a : BlastActorImpl R) (shapes : List (Option Nat)) :
    BlastActorImpl R :=
  { a with m_shapesProvider := { a.m_shapesProvider with m_shapes := shapes } }

/-- The answers of `CreateShape` to a run of requests issued one after the other, the
first of them after the requests `hist`. -/
def shapeResults (E : Env R) : List (Call R) → List (Call R) → List (Option Nat)
  | _, [] => []
  | hist, Call.CreateShape c s :: rest =>
    E.CreateShape hist c s :: shapeResults E (hist ++ [Call.CreateShape c s]) rest
  | hist, c :: rest => none :: shapeResults E (hist ++ [c]) rest

/-- The request `c` is the `CreateShape` request `AddShapes` issues for `subchunk`:
position and rotation from the subchunk's own transform, the family's collision
settings, the material id of the call, the subchunk's convex mesh and the actor's
scale. The material library is whatever the physics system names as its default. -/
def IsShapeRequest (E : Env R) (self : BlastActorImpl R) (material : MaterialId)
    (subchunk : ExtPxSubchunk R) (c : Call R) : Prop :=
  ∃ lib : Nat, c = Call.CreateShape
    { m_position := subchunk.transform.p
      m_rotation := E.QuaternionCreateFromTransform (PxMathConvert subchunk.transform)
      m_isExclusive := true
      m_materialSelection := { m_materialLibraryId := lib, m_materialId := material }
      m_collisionGroupId := self.m_family.GetActorConfiguration.m_collisionGroupId
      m_collisionLayer := self.m_family.GetActorConfiguration.m_collisionLayer
      m_isInSceneQueries := self.m_family.GetActorConfiguration.m_isInSceneQueries
      m_isSimulated := self.m_family.GetActorConfiguration.m_isSimulated
      m_tag := self.m_family.GetActorConfiguration.m_tag }
    { m_nativeShapePtr := subchunk.geometry.convexMesh
      m_nativeShapeScale := self.m_bodyConfiguration.m_scale }

/-- The requests issued by `Spawn` up to and including `SetWorldTM`: those of
`AddShapes`, then `Init`, `Activate` and `SetWorldTM` on the actor's entity. -/
def spawnBaseCalls (E : Env R) (self : BlastActorImpl R) (w : World R) : List (Call R) :=
  (self.AddShapes E self.m_chunkIndices self.m_family.GetPxAsset self.m_physicsMaterialId
      w).2.calls ++
    [Call.Init self.m_entity, Call.Activate self.m_entity,
      Call.SetWorldTM self.m_entity self.spawnTransform]

/-- The requests issued by a non-static `Spawn` up to and including `SetTransform` on
the rigid body `rb`: the spawn transform has been set. -/
def spawnSetCalls (E : Env R) (self : BlastActorImpl R) (w : World R) (rb : Nat) :
    List (Call R) :=
  spawnBaseCalls E self w ++
    [Call.GetRigidBody self.m_entity, Call.SetTransform rb self.spawnTransform]

/-- The two reads `Spawn` makes of the rigid body `rb` to compute the new centre of
mass, in the order the compiled program makes them. -/
def comReads (transformFirst : Bool) (rb : Nat) : List (Call R) :=
  if transformFirst then [Call.GetTransform rb, Call.GetCenterOfMassLocal rb]
  else [Call.GetCenterOfMassLocal rb, Call.GetTransform rb]

/-- The new centre of mass `c_n` of `Spawn`: the transform the rigid body `rb` reports
applied to the local centre of mass it reports, both read once the spawn transform
has been set on it, in either order. -/
def spawnCentreOfMass (E : Env R) (transformFirst : Bool) (self : BlastActorImpl R)
    (w : World R) (rb : Nat) : Vector3 R :=
  if transformFirst then
    (E.GetTransform (spawnSetCalls E self w rb) rb).apply
      (E.GetCenterOfMassLocal (spawnSetCalls E self w rb ++ [Call.GetTransform rb]) rb)
  else
    (E.GetTransform (spawnSetCalls E self w rb ++ [Call.GetCenterOfMassLocal rb]) rb).apply
      (E.GetCenterOfMassLocal (spawnSetCalls E self w rb) rb)

/-- Two states that agree on the actor, the requests issued and the user-data slots;
they may differ in the recorded reads and failed assertions. -/
structure Sim (st st' : BlastActorImpl R × World R) : Prop where
  actor : st.1 = st'.1
  calls : st.2.calls = st'.2.calls
  userData : st.2.userData = st'.2.userData

end Counting

/-! ## The life of actor objects -/

section Lifetime
variable {R : Type} [CommRing R]

/-- The program state: the live actor objects by address, and the world. -/
structure System (R : Type) where
  heap : Nat → Option (BlastActorImpl R)
  world : World R

/-- An operation on an actor object at address `this`. -/
inductive Op (R : Type) where
  | construct (this : Nat) (desc : BlastActorDesc R)
  | destruct (this : Nat)
  | Spawn (this : Nat) (transformFirst : Bool)
  | AddShapes (this : Nat) (chunkIndices : List Nat) (asset : ExtPxAsset R)
      (material : MaterialId)
  | Damage (this : Nat) (program : NvBlastDamageProgram) (programParams : Nat)
  | GetTransform (this : Nat)
  | GetWorldBody (this : Nat)
  | GetFamily (this : Nat)
  | GetTkActor (this : Nat)
  | GetChunkIndices (this : Nat)
  | IsStatic (this : Nat)
  | GetEntity (this : Nat)

/-- One operation. The result is `none` when the operation cannot run (constructing
in storage that holds a live actor, or using an address that holds none) or ends in
a fault. -/
def System.step (E : Env R) (s : System R) : Op R → Option (System R)
  | Op.construct this desc =>
    match s.heap this with
    | some _ => none
    | none =>
      let r := BlastActorImpl.construct this desc s.world
      some { heap := Function.update s.heap this (some r.1), world := r.2 }
  | Op.destruct this =>
    match s.heap this with
    | none => none
    | some self => some { heap := Function.update s.heap this none, world := self.destruct s.world }
  | Op.Spawn this transformFirst =>
    match s.heap this with
    | none => none
    | some self =>
      match self.Spawn E transformFirst s.world with
      | Except.error _ => none
      | Except.ok r => some { heap := Function.update s.heap this (some r.1), world := r.2 }
  | Op.AddShapes this chunkIndices asset material =>
    match s.heap this with
    | none => none
    | some self =>
      let r := self.AddShapes E chunkIndices asset material s.world
      some { heap := Function.update s.heap this (some r.1), world := r.2 }
  | Op.Damage this program programParams =>
    match s.heap this with
    | none => none
    | some self =>
      let r := self.Damage program programParams s.world
      some { heap := Function.update s.heap this (some r.1), world := r.2 }
  | Op.GetTransform this =>
    match s.heap this with
    | none => none
    | some self =>
      match self.GetTransform E s.world with
      | Except.error _ => none
      | Except.ok r => some { s with world := r.2 }
  | Op.GetWorldBody this =>
    match s.heap this with
    | none => none
    | some self => some { s with world := (self.GetWorldBody E s.world).2 }
  | Op.GetFamily this => (s.heap this).map (fun _ => s)
  | Op.GetTkActor this => (s.heap this).map (fun _ => s)
  | Op.GetChunkIndices this => (s.heap this).map (fun _ => s)
  | Op.IsStatic this => (s.heap this).map (fun _ => s)
  | Op.GetEntity this => (s.heap this).map (fun _ => s)

/-- A run of operations, one after the other. -/
def System.run (E : Env R) : System R → List (Op R) → Option (System R)
  | s, [] => some s
  | s, op :: ops =>
    match s.step E op with
    | none => none
    | some s' => System.run E s' ops

/-- The start: no actor object, nothing requested or read, every user-data slot empty. -/
def System.init : System R :=
  { heap := fun _ => none
    world := { calls := [], reads := [], asserts := [], userData := fun _ => none } }

/-- No user-data slot dangles: a slot that is not empty holds the address of a live
actor object built on that very toolkit actor. -/
def System.NoDangling (s : System R) : Prop :=
  ∀ tkActor p, s.world.userData tkActor = some p →
    ∃ self, s.heap p = some self ∧ self.m_tkActor = tkActor

end Lifetime

/-! ## Concrete inputs -/

/-- The identity rotation. -/
def Quaternion.identity : Quaternion ℤ := ⟨0, 0, 0, 1⟩

/-- A subchunk at the origin of its chunk, with convex mesh pointer `mesh`. -/
def sampleSubchunk (mesh : Nat) : ExtPxSubchunk ℤ :=
  { transform := { q := Quaternion.identity, p := ⟨0, 0, 0⟩ }, geometry := ⟨mesh⟩ }

/-- An environment in which every `CreateShape` request succeeds (the shape handle is
the number of requests issued before) and every entity has a rigid body. -/
def sampleEnv : Env ℤ :=
  { CreateShape := fun hist _ _ => some hist.length
    GetDefaultMaterialLibraryAssetId := fun _ => 7
    QuaternionCreateFromTransform := fun _ => Quaternion.identity
    GetRigidBody := fun _ entity => some (100 + entity)
    GetWorldBody := fun _ entity => some (100 + entity)
    GetTransform := fun _ _ =>
      Transform.CreateFromQuaternionAndTranslation Quaternion.identity ⟨5, 0, 0⟩
    GetCenterOfMassLocal := fun _ _ => ⟨1, 2, 3⟩ }

/-- An environment in which the first `CreateShape` request fails and the later ones
succeed. -/
def flakyEnv : Env ℤ :=
  { sampleEnv with
    CreateShape := fun hist _ _ => if hist.length = 0 then none else some hist.length }

/-- An environment in which no entity has a rigid body. -/
def bodilessEnv : Env ℤ :=
  { sampleEnv with GetRigidBody := fun _ _ => none }

/-- A world in which nothing has happened yet. -/
def emptyWorld : World ℤ :=
  { calls := [], reads := [], asserts := [], userData := fun _ => none }

/-- An asset of three chunks over four subchunks: chunk 0 owns subchunks 0 and 1,
chunk 1 owns subchunk 2, chunk 2 owns subchunk 3. -/
def sampleAsset : ExtPxAsset ℤ :=
  { getChunks := some (fun c =>
      if c = 0 then ⟨0, 2, false⟩ else if c = 1 then ⟨2, 1, false⟩ else ⟨3, 1, false⟩)
    getSubchunks := some (fun j => sampleSubchunk (1000 + j))
    getChunkCount := 3
    getSubchunkCount := 4 }

/-- A chunk array whose chunks start at the last 32-bit subchunk index and have two
subchunks each. -/
def overflowChunks : Nat → ExtPxChunk := fun _ => ⟨4294967295, 2, false⟩

/-- An asset of one chunk whose subchunk range starts at the last 32-bit index and has
two entries, over a subchunk array of one entry. -/
def overflowAsset : ExtPxAsset ℤ :=
  { getChunks := some overflowChunks
    getSubchunks := some (fun j => sampleSubchunk (1000 + j))
    getChunkCount := 1
    getSubchunkCount := 1 }

/-- An asset of one chunk with one subchunk. -/
def singleAsset : ExtPxAsset ℤ :=
  { getChunks := some (fun _ => ⟨0, 1, false⟩)
    getSubchunks := some (fun j => sampleSubchunk (1000 + j))
    getChunkCount := 1
    getSubchunkCount := 1 }

/-- An asset whose chunk array is null. -/
def nullAsset : ExtPxAsset ℤ :=
  { getChunks := none
    getSubchunks := some (fun j => sampleSubchunk (1000 + j))
    getChunkCount := 3
    getSubchunkCount := 4 }

/-- A descriptor for an actor of `asset` on toolkit actor 1 and entity 2, placed at
`(1, 0, 0)` with unit scale, spinning about the z axis. -/
def sampleDesc (asset : ExtPxAsset ℤ) (chunkIndices : List Nat) ( isStatic : Bool) :
    BlastActorDesc ℤ :=
  { m_family :=
      { GetPxAsset := asset
        GetActorConfiguration :=
          { m_collisionLayer := 3
            m_collisionGroupId := 4
            m_isSimulated := true
            m_isInSceneQueries := false
            m_isCcdEnabled := false
            m_tag := "debris" } }
    m_tkActor := 1
    m_entity := 2
    m_chunkIndices := chunkIndices
    m_isLeafChunk := false
    m_isStatic := isStatic
    m_physicsMaterialId := 9
    m_parentLinearVelocity := ⟨1, 1, 1⟩
    m_parentCenterOfMass := ⟨0, 1, 0⟩
    m_bodyConfiguration :=
      { m_orientation := Quaternion.identity
        m_position := ⟨1, 0, 0⟩
        m_scale := ⟨1, 1, 1⟩
        m_initialAngularVelocity := ⟨0, 0, 2⟩ } }

/-- The actor constructed at address 50 from `sampleDesc` in the empty world. -/
def sampleActor (asset : ExtPxAsset ℤ) (chunkIndices : List Nat) ( isStatic : Bool) :
    BlastActorImpl ℤ :=
  (BlastActorImpl.construct 50 (sampleDesc asset chunkIndices isStatic) emptyWorld).1

/-- The `CreateShape` request the sample actor, placed at `(1, 0, 0)`, issues for the
only subchunk of `singleAsset`, which sits at the origin of its chunk. -/
def sampleRequest : ColliderConfiguration ℤ × NativeShapeConfiguration ℤ :=
  ({ m_position := ⟨0, 0, 0⟩
     m_rotation := Quaternion.identity
     m_isExclusive := true
     m_materialSelection := { m_materialLibraryId := 7, m_materialId := 9 }
     m_collisionGroupId := 4
     m_collisionLayer := 3
     m_isInSceneQueries := false
     m_isSimulated := true
     m_tag := "debris" },
   { m_nativeShapePtr := 1000, m_nativeShapeScale := ⟨1, 1, 1⟩ })

/-- A life of two actors on the same toolkit actor: the first is constructed at address
50, spawned and damaged; the second is constructed at address 60; the second is
destroyed. -/
def sampleOps : List (Op ℤ) :=
  [Op.construct 50 (sampleDesc sampleAsset [0, 2] false), Op.Spawn 50 false,
    Op.Damage 50 ⟨11, 12⟩ 13, Op.GetChunkIndices 50,
    Op.construct 60 (sampleDesc sampleAsset [1] true), Op.destruct 60]

/-! ## Lemmas on `AddShapes` -/

section Lemmas
variable {R : Type} [CommRing R]

omit [CommRing R] in
@[simp] theorem World.call_calls (w : World R) (c : Call R) :
    (w.call c).calls = w.calls ++ [c] := rfl

omit [CommRing R] in
@[simp] theorem World.call_reads (w : World R) (c : Call R) : (w.call c).reads = w.reads := rfl

omit [CommRing R] in
@[simp] theorem World.call_userData (w : World R) (c : Call R) :
    (w.call c).userData = w.userData := rfl

omit [CommRing R] in
@[simp] theorem World.read_calls (w : World R) (r : Read) : (w.read r).calls = w.calls := rfl

omit [CommRing R] in
@[simp] theorem World.read_reads (w : World R) (r : Read) :
    (w.read r).reads = w.reads ++ [r] := rfl

omit [CommRing R] in
@[simp] theorem World.read_userData (w : World R) (r : Read) :
    (w.read r).userData = w.userData := rfl

omit [CommRing R] in
@[simp] theorem World.AZ_Assert_calls (w : World R) (c : Bool) (msg : String) :
    (w.AZ_Assert c msg).calls = w.calls := by
  unfold World.AZ_Assert; split <;> rfl

omit [CommRing R] in
@[simp] theorem World.AZ_Assert_reads (w : World R) (c : Bool) (msg : String) :
    (w.AZ_Assert c msg).reads = w.reads := by
  unfold World.AZ_Assert; split <;> rfl

omit [CommRing R] in
@[simp] theorem World.AZ_Assert_userData (w : World R) (c : Bool) (msg : String) :
    (w.AZ_Assert c msg).userData = w.userData := by
  unfold World.AZ_Assert; split <;> rfl

omit [CommRing R] in
theorem Sim.refl (st : BlastActorImpl R × World R) : Sim st st := ⟨rfl, rfl, rfl⟩

omit [CommRing R] in
theorem Sim.trans {a b c : BlastActorImpl R × World R} (h₁ : Sim a b) (h₂ : Sim b c) :
    Sim a c :=
  ⟨h₁.actor.trans h₂.actor, h₁.calls.trans h₂.calls, h₁.userData.trans h₂.userData⟩

omit [CommRing R] in
theorem Sim.symm {a b : BlastActorImpl R × World R} (h : Sim a b) : Sim b a :=
  ⟨h.actor.symm, h.calls.symm, h.userData.symm⟩

theorem shapeStep_sim (E : Env R) (pxSubchunks : Nat → ExtPxSubchunk R) (material : MaterialId)
    {st st' : BlastActorImpl R × World R} (h : Sim st st') (j : Nat) :
    Sim (shapeStep E pxSubchunks material st j) (shapeStep E pxSubchunks material st' j) := by
  obtain ⟨a, w⟩ := st
  obtain ⟨a', w'⟩ := st'
  obtain ⟨h1, h2, h3⟩ := h
  simp only at h1 h2 h3
  subst h1
  refine ⟨?_, ?_, ?_⟩
  · simp only [shapeStep, BlastActorImpl.CalculateColliderConfiguration, h2]
  · simp only [shapeStep, BlastActorImpl.CalculateColliderConfiguration, World.call, h2]
  · simp only [shapeStep, World.call, h3]

theorem subchunkBody_sim (E : Env R) (pxSubchunks : Nat → ExtPxSubchunk R)
    (subchunkCount : Nat) (material : MaterialId) (chunk : ExtPxChunk)
    (st : BlastActorImpl R × World R) (i : Nat) :
    Sim (BlastActorImpl.AddShapes.subchunkBody E pxSubchunks subchunkCount material chunk st i)
      (if subchunkIndexAt chunk i < subchunkCount
        then shapeStep E pxSubchunks material st (subchunkIndexAt chunk i) else st) := by
  unfold BlastActorImpl.AddShapes.subchunkBody
  by_cases h : subchunkIndexAt chunk i < subchunkCount
  · have h' : ¬ ((chunk.firstSubchunkIndex + i) % 2 ^ 32 ≥ subchunkCount) := by
      unfold subchunkIndexAt at h; omega
    simp only [h, h', if_true, if_false]
    refine ⟨?_, ?_, ?_⟩
    · simp only [shapeStep, subchunkIndexAt, BlastActorImpl.CalculateColliderConfiguration,
        World.read_calls, World.AZ_Assert_calls]
    · simp only [shapeStep, subchunkIndexAt, BlastActorImpl.CalculateColliderConfiguration,
        World.read_calls, World.AZ_Assert_calls, World.call_calls]
    · simp only [shapeStep, World.read_userData, World.AZ_Assert_userData, World.call_userData]
  · have h' : (chunk.firstSubchunkIndex + i) % 2 ^ 32 ≥ subchunkCount := by
      unfold subchunkIndexAt at h; omega
    simp only [h, h', if_true, if_false]
    exact ⟨rfl, World.AZ_Assert_calls _ _ _, World.AZ_Assert_userData _ _ _⟩

theorem inner_fold_sim (E : Env R) (pxSubchunks : Nat → ExtPxSubchunk R)
    (subchunkCount : Nat) (material : MaterialId) (chunk : ExtPxChunk) (offsets : List Nat) :
    ∀ st st' : BlastActorImpl R × World R, Sim st st' →
      Sim (offsets.foldl
            (BlastActorImpl.AddShapes.subchunkBody E pxSubchunks subchunkCount material chunk) st)
          (((offsets.filter (fun i => decide (subchunkIndexAt chunk i < subchunkCount))).map
            (subchunkIndexAt chunk)).foldl (shapeStep E pxSubchunks material) st') := by
  induction offsets with
  | nil => intro st st' h; exact h
  | cons i rest ih =>
    intro st st' h
    have hb := subchunkBody_sim E pxSubchunks subchunkCount material chunk st i
    rw [List.foldl_cons]
    by_cases hv : subchunkIndexAt chunk i < subchunkCount
    · rw [if_pos hv] at hb
      rw [List.filter_cons_of_pos (by simpa using hv), List.map_cons, List.foldl_cons]
      exact ih _ _ (hb.trans (shapeStep_sim E pxSubchunks material h _))
    · rw [if_neg hv] at hb
      rw [List.filter_cons_of_neg (by simpa using hv)]
      exact ih _ _ (hb.trans h)

theorem chunkBody_sim (E : Env R) (pxChunks : Nat → ExtPxChunk)
    (pxSubchunks : Nat → ExtPxSubchunk R) (chunkCount subchunkCount : Nat)
    (material : MaterialId) (st st' : BlastActorImpl R × World R) (h : Sim st st')
    (c : Nat) :
    Sim (BlastActorImpl.AddShapes.chunkBody E pxChunks pxSubchunks chunkCount subchunkCount
          material st c)
        (if c < chunkCount then
          ((validOffsets subchunkCount (pxChunks c)).map (subchunkIndexAt (pxChunks c))).foldl
            (shapeStep E pxSubchunks material) st'
         else st') := by
  unfold BlastActorImpl.AddShapes.chunkBody
  by_cases hc : c < chunkCount
  · have hc' : ¬ (c ≥ chunkCount) := by omega
    simp only [hc, hc', if_true, if_false]
    apply inner_fold_sim
    exact ⟨h.actor, by simp [h.calls], by simp [h.userData]⟩
  · have hc' : c ≥ chunkCount := by omega
    simp only [hc, hc', if_true, if_false]
    exact ⟨h.actor, by simp [h.calls], by simp [h.userData]⟩

omit [CommRing R] in
theorem validPairs_cons (pxChunks : Nat → ExtPxChunk) (chunkCount subchunkCount : Nat)
    (c : Nat) (cs : List Nat) :
    validPairs pxChunks chunkCount subchunkCount (c :: cs) =
      (if c < chunkCount then (validOffsets subchunkCount (pxChunks c)).map (fun i => (c, i))
        else []) ++ validPairs pxChunks chunkCount subchunkCount cs := by
  unfold validPairs
  by_cases hc : c < chunkCount
  · rw [List.filter_cons_of_pos (by simpa using hc), List.flatMap_cons, if_pos hc]
  · rw [List.filter_cons_of_neg (by simpa using hc), if_neg hc, List.nil_append]

theorem outer_fold_sim (E : Env R) (pxChunks : Nat → ExtPxChunk)
    (pxSubchunks : Nat → ExtPxSubchunk R) (chunkCount subchunkCount : Nat)
    (material : MaterialId) (chunkIndices : List Nat) :
    ∀ st st' : BlastActorImpl R × World R, Sim st st' →
      Sim (chunkIndices.foldl
            (BlastActorImpl.AddShapes.chunkBody E pxChunks pxSubchunks chunkCount subchunkCount
              material) st)
          (((validPairs pxChunks chunkCount subchunkCount chunkIndices).map
            (pairIndex pxChunks)).foldl (shapeStep E pxSubchunks material) st') := by
  induction chunkIndices with
  | nil => intro st st' h; exact h
  | cons c rest ih =>
    intro st st' h
    have hb := chunkBody_sim E pxChunks pxSubchunks chunkCount subchunkCount material st st' h c
    rw [List.foldl_cons, validPairs_cons, List.map_append, List.foldl_append]
    by_cases hc : c < chunkCount
    · rw [if_pos hc] at hb
      rw [if_pos hc, List.map_map]
      exact ih _ _ hb
    · rw [if_neg hc] at hb
      rw [if_neg hc, List.map_nil, List.foldl_nil]
      exact ih _ _ hb

theorem shapeStep_eq (E : Env R) (pxSubchunks : Nat → ExtPxSubchunk R) (material : MaterialId)
    (st : BlastActorImpl R × World R) (j : Nat) :
    ∃ c : Call R, IsShapeRequest E st.1 material (pxSubchunks j) c ∧
      shapeStep E pxSubchunks material st j =
        (st.1.withShapes (st.1.m_shapesProvider.m_shapes ++ shapeResults E st.2.calls [c]),
          st.2.call c) := by
  refine ⟨_, ⟨E.GetDefaultMaterialLibraryAssetId st.2.calls, rfl⟩, ?_⟩
  rfl

theorem fold_shapeStep_spec (E : Env R) (pxSubchunks : Nat → ExtPxSubchunk R)
    (material : MaterialId) (js : List Nat) :
    ∀ st : BlastActorImpl R × World R, ∃ newCalls : List (Call R),
      List.Forall₂ (fun j c => IsShapeRequest E st.1 material (pxSubchunks j) c) js newCalls ∧
      js.foldl (shapeStep E pxSubchunks material) st =
        (st.1.withShapes (st.1.m_shapesProvider.m_shapes ++ shapeResults E st.2.calls newCalls),
          { st.2 with calls := st.2.calls ++ newCalls }) := by
  induction js with
  | nil =>
    intro st
    exact ⟨[], List.Forall₂.nil, by simp [shapeResults, BlastActorImpl.withShapes]⟩
  | cons j rest ih =>
    intro st
    obtain ⟨c, hc, hstep⟩ := shapeStep_eq E pxSubchunks material st j
    obtain ⟨cs, hcs, hfold⟩ := ih (shapeStep E pxSubchunks material st j)
    refine ⟨c :: cs, List.Forall₂.cons hc ?_, ?_⟩
    · rw [hstep] at hcs
      exact hcs
    · rw [List.foldl_cons, hfold, hstep]
      obtain ⟨lib, rfl⟩ := hc
      simp [shapeResults, BlastActorImpl.withShapes, World.call]

theorem subchunk_fold_reads (E : Env R) (pxSubchunks : Nat → ExtPxSubchunk R)
    (subchunkCount : Nat) (material : MaterialId) (chunk : ExtPxChunk) (offsets : List Nat) :
    ∀ st : BlastActorImpl R × World R,
      (offsets.foldl
        (BlastActorImpl.AddShapes.subchunkBody E pxSubchunks subchunkCount material chunk)
        st).2.reads =
      st.2.reads ++
        (offsets.filter (fun i => decide (subchunkIndexAt chunk i < subchunkCount))).map
          (fun i => Read.subchunk (subchunkIndexAt chunk i)) := by
  induction offsets with
  | nil => intro st; simp
  | cons i rest ih =>
    intro st
    rw [List.foldl_cons, ih]
    by_cases hv : subchunkIndexAt chunk i < subchunkCount
    · have h' : ¬ ((chunk.firstSubchunkIndex + i) % 2 ^ 32 ≥ subchunkCount) := by
        unfold subchunkIndexAt at hv; omega
      rw [List.filter_cons_of_pos (by simpa using hv)]
      simp only [BlastActorImpl.AddShapes.subchunkBody, h', if_false, World.AZ_Assert_reads,
        World.call_reads, World.read_reads, List.map_cons, List.append_assoc,
        List.singleton_append, subchunkIndexAt]
    · have h' : (chunk.firstSubchunkIndex + i) % 2 ^ 32 ≥ subchunkCount := by
        unfold subchunkIndexAt at hv; omega
      rw [List.filter_cons_of_neg (by simpa using hv)]
      simp only [BlastActorImpl.AddShapes.subchunkBody, h', if_true, World.AZ_Assert_reads]

omit [CommRing R] in
theorem expectedReads_cons (pxChunks : Nat → ExtPxChunk) (chunkCount subchunkCount : Nat)
    (c : Nat) (cs : List Nat) :
    expectedReads pxChunks chunkCount subchunkCount (c :: cs) =
      (if c < chunkCount then
        Read.chunk c :: (validOffsets subchunkCount (pxChunks c)).map
          (fun i => Read.subchunk (subchunkIndexAt (pxChunks c) i))
       else []) ++ expectedReads pxChunks chunkCount subchunkCount cs := by
  unfold expectedReads
  by_cases hc : c < chunkCount
  · rw [List.filter_cons_of_pos (by simpa using hc), List.flatMap_cons, if_pos hc]
  · rw [List.filter_cons_of_neg (by simpa using hc), if_neg hc, List.nil_append]

theorem chunk_fold_reads (E : Env R) (pxChunks : Nat → ExtPxChunk)
    (pxSubchunks : Nat → ExtPxSubchunk R) (chunkCount subchunkCount : Nat)
    (material : MaterialId) (chunkIndices : List Nat) :
    ∀ st : BlastActorImpl R × World R,
      (chunkIndices.foldl
        (BlastActorImpl.AddShapes.chunkBody E pxChunks pxSubchunks chunkCount subchunkCount
          material) st).2.reads =
      st.2.reads ++ expectedReads pxChunks chunkCount subchunkCount chunkIndices := by
  induction chunkIndices with
  | nil => intro st; simp [expectedReads]
  | cons c rest ih =>
    intro st
    rw [List.foldl_cons, ih, expectedReads_cons]
    by_cases hc : c < chunkCount
    · have hc' : ¬ (c ≥ chunkCount) := by omega
      simp only [BlastActorImpl.AddShapes.chunkBody, hc, hc', if_true, if_false,
        subchunk_fold_reads, World.read_reads, World.AZ_Assert_reads, validOffsets,
        List.append_assoc, List.singleton_append, List.cons_append, List.nil_append]
    · have hc' : c ≥ chunkCount := by omega
      simp only [BlastActorImpl.AddShapes.chunkBody, hc, hc', if_true, if_false,
        World.AZ_Assert_reads, List.nil_append]

/-- What `AddShapes` does on an asset whose two arrays are non-null: the requests it
issues are one `CreateShape` per valid pair, in order; the shape collection grows by
the answers to those requests; the reads are `expectedReads`; nothing else changes
in the actor, and no user-data slot changes. -/
theorem AddShapes_spec (E : Env R) (self : BlastActorImpl R) (chunkIndices : List Nat)
    (asset : ExtPxAsset R) (material : MaterialId) (w : World R)
    (pxChunks : Nat → ExtPxChunk) (pxSubchunks : Nat → ExtPxSubchunk R)
    (hChunks : asset.getChunks = some pxChunks)
    (hSubchunks : asset.getSubchunks = some pxSubchunks) :
    ∃ newCalls : List (Call R),
      List.Forall₂ (fun j c => IsShapeRequest E self material (pxSubchunks j) c)
        ((validPairs pxChunks asset.getChunkCount asset.getSubchunkCount chunkIndices).map
          (pairIndex pxChunks)) newCalls ∧
      (self.AddShapes E chunkIndices asset material w).1 =
        self.withShapes (self.m_shapesProvider.m_shapes ++ shapeResults E w.calls newCalls) ∧
      (self.AddShapes E chunkIndices asset material w).2.calls = w.calls ++ newCalls ∧
      (self.AddShapes E chunkIndices asset material w).2.reads =
        w.reads ++ expectedReads pxChunks asset.getChunkCount asset.getSubchunkCount
          chunkIndices ∧
      (self.AddShapes E chunkIndices asset material w).2.userData = w.userData := by
  obtain ⟨newCalls, hreq, hfold⟩ := fold_shapeStep_spec E pxSubchunks material
    ((validPairs pxChunks asset.getChunkCount asset.getSubchunkCount chunkIndices).map
      (pairIndex pxChunks)) (self, w)
  have hsim := outer_fold_sim E pxChunks pxSubchunks asset.getChunkCount
    asset.getSubchunkCount material chunkIndices
    (self, (w.AZ_Assert asset.getChunks.isSome "Received asset with a null chunk array.").AZ_Assert
      asset.getSubchunks.isSome "Received asset with a null subchunk array.")
    (self, w) ⟨rfl, by simp, by simp⟩
  have hreads := chunk_fold_reads E pxChunks pxSubchunks asset.getChunkCount
    asset.getSubchunkCount material chunkIndices
    (self, (w.AZ_Assert asset.getChunks.isSome "Received asset with a null chunk array.").AZ_Assert
      asset.getSubchunks.isSome "Received asset with a null subchunk array.")
  have hdef : self.AddShapes E chunkIndices asset material w =
      chunkIndices.foldl
        (BlastActorImpl.AddShapes.chunkBody E pxChunks pxSubchunks asset.getChunkCount
          asset.getSubchunkCount material)
        (self, (w.AZ_Assert asset.getChunks.isSome
          "Received asset with a null chunk array.").AZ_Assert
          asset.getSubchunks.isSome "Received asset with a null subchunk array.") := by
    unfold BlastActorImpl.AddShapes
    simp only [hChunks, hSubchunks]
  rw [hfold] at hsim
  refine ⟨newCalls, hreq, ?_, ?_, ?_, ?_⟩
  · rw [hdef]; exact hsim.actor
  · rw [hdef]; exact hsim.calls
  · rw [hdef, hreads]; simp
  · rw [hdef]; exact hsim.userData

/-- On an asset with a null chunk array or a null subchunk array `AddShapes` returns at
once: the actor, the requests, the reads and the user-data slots are unchanged. -/
theorem AddShapes_null (E : Env R) (self : BlastActorImpl R) (chunkIndices : List Nat)
    (asset : ExtPxAsset R) (material : MaterialId) (w : World R)
    (h : asset.getChunks = none ∨ asset.getSubchunks = none) :
    (self.AddShapes E chunkIndices asset material w).1 = self ∧
    (self.AddShapes E chunkIndices asset material w).2.calls = w.calls ∧
    (self.AddShapes E chunkIndices asset material w).2.reads = w.reads ∧
    (self.AddShapes E chunkIndices asset material w).2.userData = w.userData := by
  unfold BlastActorImpl.AddShapes
  rcases h with h | h
  · simp [h]
  · cases hc : asset.getChunks <;> simp [h]

omit [CommRing R] in
theorem shapeResults_length (E : Env R) (newCalls : List (Call R)) :
    ∀ hist : List (Call R), (shapeResults E hist newCalls).length = newCalls.length := by
  induction newCalls with
  | nil => intro hist; rfl
  | cons c rest ih =>
    intro hist
    cases c <;> simp [shapeResults, ih]

omit [CommRing R] in
theorem validPairs_filter (pxChunks : Nat → ExtPxChunk) (chunkCount subchunkCount : Nat)
    (cs : List Nat) :
    validPairs pxChunks chunkCount subchunkCount
        (cs.filter (fun c => decide (c < chunkCount))) =
      validPairs pxChunks chunkCount subchunkCount cs := by
  unfold validPairs
  rw [List.filter_filter]
  simp

omit [CommRing R] in
theorem expectedReads_filter (pxChunks : Nat → ExtPxChunk) (chunkCount subchunkCount : Nat)
    (cs : List Nat) :
    expectedReads pxChunks chunkCount subchunkCount
        (cs.filter (fun c => decide (c < chunkCount))) =
      expectedReads pxChunks chunkCount subchunkCount cs := by
  unfold expectedReads
  rw [List.filter_filter]
  simp

omit [CommRing R] in
theorem mem_validPairs (pxChunks : Nat → ExtPxChunk) (chunkCount subchunkCount : Nat)
    (cs : List Nat) (p : Nat × Nat) :
    p ∈ validPairs pxChunks chunkCount subchunkCount cs ↔
      p.1 ∈ cs ∧ p.1 < chunkCount ∧ p.2 < (pxChunks p.1).subchunkCount ∧
        subchunkIndexAt (pxChunks p.1) p.2 < subchunkCount := by
  obtain ⟨c, i⟩ := p
  simp only [validPairs, validOffsets, List.mem_flatMap, List.mem_filter, List.mem_map,
    List.mem_range, decide_eq_true_eq, Prod.mk.injEq]
  constructor
  · rintro ⟨c', ⟨hmem, hlt⟩, i', ⟨hi, hv⟩, rfl, rfl⟩
    exact ⟨hmem, hlt, hi, hv⟩
  · rintro ⟨hmem, hlt, hi, hv⟩
    exact ⟨c, ⟨hmem, hlt⟩, i, ⟨hi, hv⟩, rfl, rfl⟩

omit [CommRing R] in
theorem forall₂_right_mem {α β : Type} {P : α → β → Prop} {as : List α} {bs : List β}
    (h : List.Forall₂ P as bs) : ∀ b ∈ bs, ∃ a ∈ as, P a b := by
  induction h with
  | nil => intro b hb; cases hb
  | cons hab _ ih =>
    intro b hb
    rcases List.mem_cons.mp hb with rfl | hb
    · exact ⟨_, List.mem_cons_self _ _, hab⟩
    · obtain ⟨a, ha, hp⟩ := ih b hb
      exact ⟨a, List.mem_cons_of_mem _ ha, hp⟩

/-- On every asset, `AddShapes` only issues `CreateShape` requests, each one a shape
request for some subchunk; the actor changes in its shape collection only, which grows
by the answers to these requests; the user-data slots are unchanged. -/
theorem AddShapes_frame (E : Env R) (self : BlastActorImpl R) (chunkIndices : List Nat)
    (asset : ExtPxAsset R) (material : MaterialId) (w : World R) :
    ∃ newCalls : List (Call R),
      (∀ c ∈ newCalls, ∃ subchunk : ExtPxSubchunk R, IsShapeRequest E self material subchunk c) ∧
      (self.AddShapes E chunkIndices asset material w).1 =
        self.withShapes (self.m_shapesProvider.m_shapes ++ shapeResults E w.calls newCalls) ∧
      (self.AddShapes E chunkIndices asset material w).2.calls = w.calls ++ newCalls ∧
      (self.AddShapes E chunkIndices asset material w).2.userData = w.userData := by
  cases hChunks : asset.getChunks with
  | none =>
    obtain ⟨h1, h2, -, h4⟩ := AddShapes_null E self chunkIndices asset material w (Or.inl hChunks)
    exact ⟨[], by simp, by simp [h1, shapeResults, BlastActorImpl.withShapes], by simp [h2], h4⟩
  | some pxChunks =>
    cases hSubchunks : asset.getSubchunks with
    | none =>
      obtain ⟨h1, h2, -, h4⟩ :=
        AddShapes_null E self chunkIndices asset material w (Or.inr hSubchunks)
      exact ⟨[], by simp, by simp [h1, shapeResults, BlastActorImpl.withShapes], by simp [h2], h4⟩
    | some pxSubchunks =>
      obtain ⟨newCalls, hreq, hactor, hcalls, -, hud⟩ :=
        AddShapes_spec E self chunkIndices asset material w pxChunks pxSubchunks hChunks
          hSubchunks
      refine ⟨newCalls, ?_, hactor, hcalls, hud⟩
      intro c hc
      obtain ⟨j, -, hj⟩ := forall₂_right_mem hreq c hc
      exact ⟨pxSubchunks j, hj⟩

/-- `Spawn` in terms of the actor it is called on: after `AddShapes`, `Init`, `Activate`
and `SetWorldTM`, a static actor is done; a non-static one asks for its rigid body,
faults when there is none, and otherwise sets the transform, makes the two reads in
the order of the compiled program and sets the two velocities. -/
theorem Spawn_eq (E : Env R) (transformFirst : Bool) (self : BlastActorImpl R) (w : World R) :
    self.Spawn E transformFirst w =
      if self.m_isStatic = true then
        Except.ok ((self.AddShapes E self.m_chunkIndices self.m_family.GetPxAsset
            self.m_physicsMaterialId w).1,
          { (self.AddShapes E self.m_chunkIndices self.m_family.GetPxAsset
              self.m_physicsMaterialId w).2 with calls := spawnBaseCalls E self w })
      else
        match E.GetRigidBody (spawnBaseCalls E self w) self.m_entity with
        | none => Except.error Fault.nullDereference
        | some rb =>
          Except.ok ((self.AddShapes E self.m_chunkIndices self.m_family.GetPxAsset
              self.m_physicsMaterialId w).1,
            { (self.AddShapes E self.m_chunkIndices self.m_family.GetPxAsset
                self.m_physicsMaterialId w).2 with
              calls := spawnSetCalls E self w rb ++ comReads transformFirst rb ++
                [Call.SetLinearVelocity self.m_entity
                    (self.m_parentLinearVelocity +
                      self.m_bodyConfiguration.m_initialAngularVelocity.Cross
                        (spawnCentreOfMass E transformFirst self w rb -
                          self.m_parentCenterOfMass)),
                  Call.SetAngularVelocity self.m_entity
                    self.m_bodyConfiguration.m_initialAngularVelocity] }) := by
  obtain ⟨newCalls, -, hactor, -, -⟩ := AddShapes_frame E self self.m_chunkIndices
    self.m_family.GetPxAsset self.m_physicsMaterialId w
  unfold BlastActorImpl.Spawn spawnCentreOfMass spawnSetCalls comReads spawnBaseCalls
  simp only [hactor]
  cases hs : self.m_isStatic
  · cases transformFirst <;>
      simp only [BlastActorImpl.withShapes, BlastActorImpl.spawnTransform, hs, Bool.not_false,
        if_true, World.call, List.append_assoc, List.singleton_append, List.cons_append,
        List.nil_append, Bool.false_eq_true, if_false]
  · simp [BlastActorImpl.withShapes, BlastActorImpl.spawnTransform, hs, World.call]

omit [CommRing R] in
theorem mem_expectedReads_chunk (pxChunks : Nat → ExtPxChunk) (chunkCount subchunkCount : Nat)
    (cs : List Nat) (i : Nat)
    (h : Read.chunk i ∈ expectedReads pxChunks chunkCount subchunkCount cs) :
    i ∈ cs ∧ i < chunkCount := by
  simp only [expectedReads, List.mem_flatMap, List.mem_filter, List.mem_cons, List.mem_map,
    decide_eq_true_eq, Read.chunk.injEq, reduceCtorEq, and_false, exists_false, or_false] at h
  obtain ⟨c, ⟨hmem, hc⟩, rfl⟩ := h
  exact ⟨hmem, hc⟩

omit [CommRing R] in
theorem validPairs_append (pxChunks : Nat → ExtPxChunk) (chunkCount subchunkCount : Nat)
    (front back : List Nat) :
    validPairs pxChunks chunkCount subchunkCount (front ++ back) =
      validPairs pxChunks chunkCount subchunkCount front ++
        validPairs pxChunks chunkCount subchunkCount back := by
  unfold validPairs
  rw [List.filter_append, List.flatMap_append]

omit [CommRing R] in
theorem validPairs_append_cons (pxChunks : Nat → ExtPxChunk) (chunkCount subchunkCount : Nat)
    (front back : List Nat) (c : Nat) :
    validPairs pxChunks chunkCount subchunkCount (front ++ c :: back) =
      validPairs pxChunks chunkCount subchunkCount front ++
        (if c < chunkCount then
          (validOffsets subchunkCount (pxChunks c)).map (fun i => (c, i))
         else []) ++
        validPairs pxChunks chunkCount subchunkCount back := by
  rw [validPairs_append, validPairs_cons, List.append_assoc]

omit [CommRing R] in
theorem mem_expectedReads_subchunk (pxChunks : Nat → ExtPxChunk)
    (chunkCount subchunkCount : Nat) (cs : List Nat) (j : Nat)
    (h : Read.subchunk j ∈ expectedReads pxChunks chunkCount subchunkCount cs) :
    j < subchunkCount := by
  simp only [expectedReads, validOffsets, List.mem_flatMap, List.mem_filter, List.mem_cons,
    List.mem_map, List.mem_range, decide_eq_true_eq, Read.subchunk.injEq, reduceCtorEq,
    false_or] at h
  obtain ⟨c, -, i, ⟨-, hv⟩, rfl⟩ := h
  exact hv

/-- `Spawn` on a non-static actor whose entity answers the rigid body query with a null
pointer ends in a fault: the pointer is dereferenced unguarded. -/
theorem Spawn_null_rigid_body (E : Env R) (transformFirst : Bool) (self : BlastActorImpl R)
    (w : World R) (hStatic : self.m_isStatic = false)
    (hBody : E.GetRigidBody (spawnBaseCalls E self w) self.m_entity = none) :
    self.Spawn E transformFirst w = Except.error Fault.nullDereference := by
  rw [Spawn_eq, if_neg (by simp [hStatic]), hBody]

/-- A successful `Spawn` keeps the toolkit actor of the object and every user-data slot. -/
theorem Spawn_frame (E : Env R) (transformFirst : Bool) (self : BlastActorImpl R)
    (w : World R) (r : BlastActorImpl R × World R)
    (h : self.Spawn E transformFirst w = Except.ok r) :
    r.1.m_tkActor = self.m_tkActor ∧ r.2.userData = w.userData := by
  obtain ⟨newCalls, -, hactor, -, hud⟩ := AddShapes_frame E self self.m_chunkIndices
    self.m_family.GetPxAsset self.m_physicsMaterialId w
  rw [Spawn_eq] at h
  split at h
  · cases h
    exact ⟨by rw [hactor]; rfl, hud⟩
  · split at h
    · cases h
    · cases h
      exact ⟨by rw [hactor]; rfl, hud⟩

omit [CommRing R] in
/-- Replacing a live object by one on the same toolkit actor, with the slots untouched,
keeps every slot sound. -/
theorem NoDangling_update (s : System R) (this : Nat) (self self' : BlastActorImpl R)
    (w' : World R) (hlive : s.heap this = some self) (htk : self'.m_tkActor = self.m_tkActor)
    (hud : w'.userData = s.world.userData) (hs : s.NoDangling) :
    System.NoDangling { heap := Function.update s.heap this (some self'), world := w' } := by
  intro tkActor p hp
  simp only [hud] at hp
  obtain ⟨a, ha, hatk⟩ := hs tkActor p hp
  by_cases hpt : p = this
  · subst hpt
    rw [hlive] at ha
    cases ha
    exact ⟨self', by simp, htk.trans hatk⟩
  · exact ⟨a, by simp [Function.update_noteq hpt, ha], hatk⟩

omit [CommRing R] in
/-- Changing the world without touching the slots keeps every slot sound. -/
theorem NoDangling_world (s : System R) (w' : World R)
    (hud : w'.userData = s.world.userData) (hs : s.NoDangling) :
    System.NoDangling { s with world := w' } := by
  intro tkActor p hp
  simp only [hud] at hp
  exact hs tkActor p hp

/-- Every operation keeps every user-data slot sound. -/
theorem step_NoDangling (E : Env R) (s s' : System R) (op : Op R) (hs : s.NoDangling)
    (h : s.step E op = some s') : s'.NoDangling := by
  cases op with
  | construct this desc =>
    simp only [System.step] at h
    cases hlive : s.heap this with
    | some a => simp [hlive] at h
    | none =>
      simp only [hlive, Option.some.injEq] at h
      subst h
      intro tkActor p hp
      simp only [BlastActorImpl.construct] at hp ⊢
      by_cases htk : tkActor = desc.m_tkActor
      · subst htk
        simp only [Function.update_same, Option.some.injEq] at hp
        subst hp
        exact ⟨(BlastActorImpl.construct this desc s.world).1,
          by simp [BlastActorImpl.construct], rfl⟩
      · rw [Function.update_noteq htk] at hp
        obtain ⟨a, ha, hatk⟩ := hs tkActor p hp
        have hpt : p ≠ this := by
          rintro rfl
          rw [hlive] at ha
          cases ha
        exact ⟨a, by simp [Function.update_noteq hpt, ha], hatk⟩
  | destruct this =>
    simp only [System.step] at h
    cases hlive : s.heap this with
    | none => simp [hlive] at h
    | some self =>
      simp only [hlive, Option.some.injEq] at h
      subst h
      intro tkActor p hp
      simp only [BlastActorImpl.destruct] at hp ⊢
      by_cases htk : tkActor = self.m_tkActor
      · subst htk
        simp at hp
      · rw [Function.update_noteq htk] at hp
        obtain ⟨a, ha, hatk⟩ := hs tkActor p hp
        have hpt : p ≠ this := by
          rintro rfl
          rw [hlive] at ha
          cases ha
          exact htk hatk.symm
        exact ⟨a, by simp [Function.update_noteq hpt, ha], hatk⟩
  | Spawn this transformFirst =>
    simp only [System.step] at h
    cases hlive : s.heap this with
    | none => simp [hlive] at h
    | some self =>
      simp only [hlive] at h
      cases hsp : self.Spawn E transformFirst s.world with
      | error e => simp [hsp] at h
      | ok r =>
        simp only [hsp, Option.some.injEq] at h
        subst h
        obtain ⟨h1, h2⟩ := Spawn_frame E transformFirst self s.world r hsp
        exact NoDangling_update s this self r.1 r.2 hlive h1 h2 hs
  | AddShapes this chunkIndices asset material =>
    simp only [System.step] at h
    cases hlive : s.heap this with
    | none => simp [hlive] at h
    | some self =>
      simp only [hlive, Option.some.injEq] at h
      subst h
      obtain ⟨newCalls, -, hactor, -, hud⟩ :=
        AddShapes_frame E self chunkIndices asset material s.world
      exact NoDangling_update s this self _ _ hlive (by rw [hactor]; rfl) hud hs
  | Damage this program programParams =>
    simp only [System.step] at h
    cases hlive : s.heap this with
    | none => simp [hlive] at h
    | some self =>
      simp only [hlive, Option.some.injEq] at h
      subst h
      exact NoDangling_update s this self _ _ hlive rfl rfl hs
  | GetTransform this =>
    simp only [System.step] at h
    cases hlive : s.heap this with
    | none => simp [hlive] at h
    | some self =>
      simp only [hlive] at h
      cases hgt : self.GetTransform E s.world with
      | error e => simp [hgt] at h
      | ok r =>
        simp only [hgt, Option.some.injEq] at h
        subst h
        refine NoDangling_world s r.2 ?_ hs
        unfold BlastActorImpl.GetTransform BlastActorImpl.GetWorldBody at hgt
        simp only at hgt
        split at hgt
        · cases hgt
        · cases hgt
          rfl
  | GetWorldBody this =>
    simp only [System.step] at h
    cases hlive : s.heap this with
    | none => simp [hlive] at h
    | some self =>
      simp only [hlive, Option.some.injEq] at h
      subst h
      exact NoDangling_world s _ rfl hs
  | GetFamily this =>
    simp only [System.step, Option.map_eq_some'] at h
    obtain ⟨_, -, rfl⟩ := h
    exact hs
  | GetTkActor this =>
    simp only [System.step, Option.map_eq_some'] at h
    obtain ⟨_, -, rfl⟩ := h
    exact hs
  | GetChunkIndices this =>
    simp only [System.step, Option.map_eq_some'] at h
    obtain ⟨_, -, rfl⟩ := h
    exact hs
  | IsStatic this =>
    simp only [System.step, Option.map_eq_some'] at h
    obtain ⟨_, -, rfl⟩ := h
    exact hs
  | GetEntity this =>
    simp only [System.step, Option.map_eq_some'] at h
    obtain ⟨_, -, rfl⟩ := h
    exact hs

/-- Every run of operations keeps every user-data slot sound. -/
theorem run_NoDangling (E : Env R) (ops : List (Op R)) :
    ∀ s s' : System R, s.NoDangling → System.run E s ops = some s' → s'.NoDangling := by
  induction ops with
  | nil =>
    intro s s' hs h
    simp only [System.run, Option.some.injEq] at h
    subst h
    exact hs
  | cons op rest ih =>
    intro s s' hs h
    simp only [System.run] at h
    cases hstep : s.step E op with
    | none => simp [hstep] at h
    | some s₁ =>
      simp only [hstep] at h
      exact ih s₁ s' (step_NoDangling E s s₁ op hs hstep) h

end Lemmas

/-! ## The claims -/

section Claims
variable {R : Type} [CommRing R]

/-- C2: an out-of-range chunk id produces no shape and raises no fault, and the remaining
chunks are still processed. On an asset with non-null arrays, `AddShapes` (a total
function) issues exactly one `CreateShape` request per valid pair of the list, in
list order, where the valid pairs are those of the entries `chunkId < chunkCount`:
an entry `≥ chunkCount` contributes none and is never used to read the chunk array,
and every entry `< chunkCount` contributes all its valid offsets wherever it stands
in the list. The shape collection grows by the answers to these requests. The same
requests, shapes, reads and slots result from the list with every entry
`≥ chunkCount` removed. -/
theorem AddShapes_skips_out_of_range_chunks (E : Env R) (self : BlastActorImpl R)
    (chunkIndices : List Nat) (asset : ExtPxAsset R) (material : MaterialId) (w : World R)
    (pxChunks : Nat → ExtPxChunk) (pxSubchunks : Nat → ExtPxSubchunk R)
    (hChunks : asset.getChunks = some pxChunks)
    (hSubchunks : asset.getSubchunks = some pxSubchunks) :
    ∃ newCalls : List (Call R),
      List.Forall₂
        (fun p c => IsShapeRequest E self material (pxSubchunks (pairIndex pxChunks p)) c)
        (validPairs pxChunks asset.getChunkCount asset.getSubchunkCount chunkIndices)
        newCalls ∧
      (∀ p : Nat × Nat,
        p ∈ validPairs pxChunks asset.getChunkCount asset.getSubchunkCount chunkIndices ↔
          p.1 ∈ chunkIndices ∧ p.1 < asset.getChunkCount ∧
          p.2 < (pxChunks p.1).subchunkCount ∧
          ((pxChunks p.1).firstSubchunkIndex + p.2) % 2 ^ 32 < asset.getSubchunkCount) ∧
      (∀ (front back : List Nat) (c : Nat), chunkIndices = front ++ c :: back →
        validPairs pxChunks asset.getChunkCount asset.getSubchunkCount chunkIndices =
          validPairs pxChunks asset.getChunkCount asset.getSubchunkCount front ++
          (if c < asset.getChunkCount then
            (validOffsets asset.getSubchunkCount (pxChunks c)).map (fun i => (c, i))
           else []) ++
          validPairs pxChunks asset.getChunkCount asset.getSubchunkCount back) ∧
      (self.AddShapes E chunkIndices asset material w).2.calls = w.calls ++ newCalls ∧
      (self.AddShapes E chunkIndices asset material w).1 =
        self.withShapes (self.m_shapesProvider.m_shapes ++ shapeResults E w.calls newCalls) ∧
      (self.AddShapes E chunkIndices asset material w).1.m_shapesProvider.m_shapes =
        self.m_shapesProvider.m_shapes ++ shapeResults E w.calls newCalls ∧
      (shapeResults E w.calls newCalls).length =
        (validPairs pxChunks asset.getChunkCount asset.getSubchunkCount chunkIndices).length ∧
      (∃ newReads : List Read,
        (self.AddShapes E chunkIndices asset material w).2.reads = w.reads ++ newReads ∧
        ∀ i, Read.chunk i ∈ newReads → i ∈ chunkIndices ∧ i < asset.getChunkCount) ∧
      (self.AddShapes E chunkIndices asset material w).2.userData = w.userData ∧
      (self.AddShapes E (chunkIndices.filter (fun c => decide (c < asset.getChunkCount)))
          asset material w).1 = (self.AddShapes E chunkIndices asset material w).1 ∧
      (self.AddShapes E (chunkIndices.filter (fun c => decide (c < asset.getChunkCount)))
          asset material w).2.calls =
        (self.AddShapes E chunkIndices asset material w).2.calls ∧
      (self.AddShapes E (chunkIndices.filter (fun c => decide (c < asset.getChunkCount)))
          asset material w).2.reads =
        (self.AddShapes E chunkIndices asset material w).2.reads ∧
      (self.AddShapes E (chunkIndices.filter (fun c => decide (c < asset.getChunkCount)))
          asset material w).2.userData =
        (self.AddShapes E chunkIndices asset material w).2.userData := by
  obtain ⟨newCalls, hreq, hactor, hcalls, hreads, hud⟩ :=
    AddShapes_spec E self chunkIndices asset material w pxChunks pxSubchunks hChunks hSubchunks
  obtain ⟨newCalls', hreq', hactor', hcalls', hreads', hud'⟩ :=
    AddShapes_spec E self (chunkIndices.filter (fun c => decide (c < asset.getChunkCount)))
      asset material w pxChunks pxSubchunks hChunks hSubchunks
  rw [validPairs_filter] at hreq'
  rw [expectedReads_filter] at hreads'
  have hsame : (self.AddShapes E
      (chunkIndices.filter (fun c => decide (c < asset.getChunkCount))) asset material w).2.calls
      = (self.AddShapes E chunkIndices asset material w).2.calls := by
    have hdef : ∀ cs : List Nat, self.AddShapes E cs asset material w =
        cs.foldl
          (BlastActorImpl.AddShapes.chunkBody E pxChunks pxSubchunks asset.getChunkCount
            asset.getSubchunkCount material)
          (self, (w.AZ_Assert asset.getChunks.isSome
            "Received asset with a null chunk array.").AZ_Assert
            asset.getSubchunks.isSome "Received asset with a null subchunk array.") := by
      intro cs
      unfold BlastActorImpl.AddShapes
      simp only [hChunks, hSubchunks]
    have hsim : ∀ cs : List Nat, Sim (self.AddShapes E cs asset material w)
        (((validPairs pxChunks asset.getChunkCount asset.getSubchunkCount cs).map
          (pairIndex pxChunks)).foldl (shapeStep E pxSubchunks material) (self, w)) := by
      intro cs
      rw [hdef]
      exact outer_fold_sim E pxChunks pxSubchunks asset.getChunkCount
        asset.getSubchunkCount material cs _ _ ⟨rfl, by simp, by simp⟩
    have h1 := hsim chunkIndices
    have h2 := hsim (chunkIndices.filter (fun c => decide (c < asset.getChunkCount)))
    rw [validPairs_filter] at h2
    exact (h2.trans h1.symm).calls
  have hnew : newCalls' = newCalls := by
    have := hsame
    rw [hcalls, hcalls'] at this
    exact List.append_cancel_left this
  subst hnew
  rw [List.forall₂_map_left_iff] at hreq
  refine ⟨newCalls', hreq, ?_, ?_, hcalls, hactor, by rw [hactor]; rfl, ?_,
    ⟨_, hreads, ?_⟩, hud, ?_, hsame, ?_, ?_⟩
  · intro p
    exact mem_validPairs pxChunks _ _ chunkIndices p
  · intro front back c hsplit
    subst hsplit
    exact validPairs_append_cons pxChunks _ _ front back c
  · rw [shapeResults_length, ← hreq.length_eq]
  · intro i hi
    exact mem_expectedReads_chunk pxChunks _ _ chunkIndices i hi
  · rw [hactor', hactor]
  · rw [hreads', hreads]
  · rw [hud', hud]

/-- C4, at the failing input: with a `CreateShape` that fails on the first request, the
null result is handed to the shapes provider all the same, so the shape collection
gains a null entry for that subchunk; the next subchunk still gets its shape. -/
theorem AddShapes_appends_failed_shape :
    flakyEnv.CreateShape [] = (fun _ _ => none) ∧
    ((sampleActor sampleAsset [0] false).AddShapes flakyEnv [0] sampleAsset 9
        emptyWorld).1.m_shapesProvider.m_shapes = [none, some 1] ∧
    ((sampleActor sampleAsset [0] false).AddShapes flakyEnv [0] sampleAsset 9
        emptyWorld).2.asserts = ["Failed to create Shape for BlastActor"] := by
  refine ⟨rfl, by decide, by decide⟩

/-- C3: velocity continuity. For a non-static actor whose entity has a rigid body,
whichever of the two reads of the body the compiled program makes first, `Spawn`
succeeds, issues `SetLinearVelocity` once, and the vector it passes is, component by
component, `v_p + w_p × (c_n - c_p)` in exact arithmetic: `v_p` the parent linear
velocity, `w_p` the initial angular velocity of the body configuration, `c_p` the
parent centre of mass, and `c_n` the rigid body's transform applied to its local
centre of mass, both read after the spawn transform was set on the body. When the
answer to either read does not depend on the other read having been made, `c_n` is
the same for both orders. -/
theorem Spawn_linear_velocity (E : Env R) (transformFirst : Bool) (self : BlastActorImpl R)
    (w : World R) (rb : Nat) (hStatic : self.m_isStatic = false)
    (hBody : E.GetRigidBody (spawnBaseCalls E self w) self.m_entity = some rb) :
    ∃ (a' : BlastActorImpl R) (w' : World R) (v : Vector3 R),
      self.Spawn E transformFirst w = Except.ok (a', w') ∧
      w'.calls = spawnSetCalls E self w rb ++ comReads transformFirst rb ++
        [Call.SetLinearVelocity self.m_entity v,
          Call.SetAngularVelocity self.m_entity
            self.m_bodyConfiguration.m_initialAngularVelocity] ∧
      (∀ (e' : Nat) (v' : Vector3 R), Call.SetLinearVelocity e' v' ∈ w'.calls →
        Call.SetLinearVelocity e' v' ∈ w.calls ∨ (e' = self.m_entity ∧ v' = v)) ∧
      v.x = self.m_parentLinearVelocity.x +
        (self.m_bodyConfiguration.m_initialAngularVelocity.y *
            ((spawnCentreOfMass E transformFirst self w rb).z - self.m_parentCenterOfMass.z) -
          self.m_bodyConfiguration.m_initialAngularVelocity.z *
            ((spawnCentreOfMass E transformFirst self w rb).y - self.m_parentCenterOfMass.y)) ∧
      v.y = self.m_parentLinearVelocity.y +
        (self.m_bodyConfiguration.m_initialAngularVelocity.z *
            ((spawnCentreOfMass E transformFirst self w rb).x - self.m_parentCenterOfMass.x) -
          self.m_bodyConfiguration.m_initialAngularVelocity.x *
            ((spawnCentreOfMass E transformFirst self w rb).z - self.m_parentCenterOfMass.z)) ∧
      v.z = self.m_parentLinearVelocity.z +
        (self.m_bodyConfiguration.m_initialAngularVelocity.x *
            ((spawnCentreOfMass E transformFirst self w rb).y - self.m_parentCenterOfMass.y) -
          self.m_bodyConfiguration.m_initialAngularVelocity.y *
            ((spawnCentreOfMass E transformFirst self w rb).x - self.m_parentCenterOfMass.x)) ∧
      (E.GetTransform (spawnSetCalls E self w rb ++ [Call.GetCenterOfMassLocal rb]) rb =
          E.GetTransform (spawnSetCalls E self w rb) rb →
        E.GetCenterOfMassLocal (spawnSetCalls E self w rb ++ [Call.GetTransform rb]) rb =
          E.GetCenterOfMassLocal (spawnSetCalls E self w rb) rb →
        spawnCentreOfMass E transformFirst self w rb =
          (E.GetTransform (spawnSetCalls E self w rb) rb).apply
            (E.GetCenterOfMassLocal (spawnSetCalls E self w rb) rb)) := by
  obtain ⟨shapeCalls, hreq, -, hcalls, -⟩ := AddShapes_frame E self self.m_chunkIndices
    self.m_family.GetPxAsset self.m_physicsMaterialId w
  rw [Spawn_eq, if_neg (by simp [hStatic]), hBody]
  refine ⟨_, _, _, rfl, rfl, ?_, rfl, rfl, rfl, ?_⟩
  · intro e' v' hmem
    simp only [spawnSetCalls, spawnBaseCalls, hcalls, List.mem_append, List.mem_cons,
      List.mem_singleton, reduceCtorEq, Call.SetLinearVelocity.injEq, or_false, false_or,
      List.not_mem_nil] at hmem
    rcases hmem with ((hw | hs) | hr) | h
    · exact Or.inl hw
    · obtain ⟨subchunk, lib, heq⟩ := hreq _ hs
      cases heq
    · cases transformFirst <;> simp [comReads] at hr
    · exact Or.inr h
  · intro h1 h2
    cases transformFirst
    · simp only [spawnCentreOfMass, Bool.false_eq_true, if_false, h1]
    · simp only [spawnCentreOfMass, if_true, h2]

/-- C3, witness: the non-static sample actor, parent velocity `(1, 1, 1)`, angular
velocity `(0, 0, 2)`, parent centre of mass `(0, 1, 0)`; the body reports the new
centre of mass `(6, 2, 3)`, and the linear velocity set is `(-1, 13, 1)`, whichever
read comes first. -/
theorem Spawn_linear_velocity_witness :
    (∃ (a' : BlastActorImpl ℤ) (w' : World ℤ),
      (sampleActor sampleAsset [0, 2] false).Spawn sampleEnv true emptyWorld =
        Except.ok (a', w') ∧
      w'.calls.drop 10 =
        [Call.SetLinearVelocity 2 ⟨-1, 13, 1⟩, Call.SetAngularVelocity 2 ⟨0, 0, 2⟩]) ∧
    (∃ (a' : BlastActorImpl ℤ) (w' : World ℤ),
      (sampleActor sampleAsset [0, 2] false).Spawn sampleEnv false emptyWorld =
        Except.ok (a', w') ∧
      w'.calls.drop 10 =
        [Call.SetLinearVelocity 2 ⟨-1, 13, 1⟩, Call.SetAngularVelocity 2 ⟨0, 0, 2⟩]) := by
  constructor
  · obtain ⟨a', w', v, h, hc, -, hx, hy, hz, -⟩ :=
      Spawn_linear_velocity sampleEnv true (sampleActor sampleAsset [0, 2] false) emptyWorld
        102 rfl rfl
    refine ⟨a', w', h, ?_⟩
    have hv : v = ⟨-1, 13, 1⟩ := by
      cases v
      simp only at hx hy hz
      subst hx hy hz
      decide
    rw [hc, hv]
    decide
  · obtain ⟨a', w', v, h, hc, -, hx, hy, hz, -⟩ :=
      Spawn_linear_velocity sampleEnv false (sampleActor sampleAsset [0, 2] false) emptyWorld
        102 rfl rfl
    refine ⟨a', w', h, ?_⟩
    have hv : v = ⟨-1, 13, 1⟩ := by
      cases v
      simp only at hx hy hz
      subst hx hy hz
      decide
    rw [hc, hv]
    decide

/-- C8 (amended): `Spawn` sets the velocities only for a non-static actor. In both cases
it first issues the `CreateShape` requests of `AddShapes` and keeps the actor
`AddShapes` returns, then `Init`, `Activate` and `SetWorldTM` on the entity. A static
actor stops there: no rigid body query, no `SetLinearVelocity`, no
`SetAngularVelocity`. A non-static actor whose entity answers the rigid body query
with a rigid body then issues exactly one rigid body query, one `SetLinearVelocity`
and one `SetAngularVelocity`, the latter with the initial angular velocity of the
body configuration, whichever of the two reads of the body is made first. -/
theorem Spawn_velocities_only_when_not_static (E : Env R) (transformFirst : Bool)
    (self : BlastActorImpl R) (w : World R) :
    ∃ shapeCalls : List (Call R),
      (∀ c ∈ shapeCalls, ∃ cc sc, c = Call.CreateShape cc sc) ∧
      (self.AddShapes E self.m_chunkIndices self.m_family.GetPxAsset
        self.m_physicsMaterialId w).2.calls = w.calls ++ shapeCalls ∧
      (self.m_isStatic = true →
        ∃ w' : World R,
          self.Spawn E transformFirst w = Except.ok
            ((self.AddShapes E self.m_chunkIndices self.m_family.GetPxAsset
              self.m_physicsMaterialId w).1, w') ∧
          w'.calls = w.calls ++ shapeCalls ++
            [Call.Init self.m_entity, Call.Activate self.m_entity,
              Call.SetWorldTM self.m_entity self.spawnTransform]) ∧
      (self.m_isStatic = false →
        ∀ rb : Nat,
          E.GetRigidBody
            (w.calls ++ shapeCalls ++
              [Call.Init self.m_entity, Call.Activate self.m_entity,
                Call.SetWorldTM self.m_entity self.spawnTransform]) self.m_entity = some rb →
          ∃ (w' : World R) (v : Vector3 R),
            self.Spawn E transformFirst w = Except.ok
              ((self.AddShapes E self.m_chunkIndices self.m_family.GetPxAsset
                self.m_physicsMaterialId w).1, w') ∧
            w'.calls = w.calls ++ shapeCalls ++
              [Call.Init self.m_entity, Call.Activate self.m_entity,
                Call.SetWorldTM self.m_entity self.spawnTransform,
                Call.GetRigidBody self.m_entity, Call.SetTransform rb self.spawnTransform] ++
              comReads transformFirst rb ++
              [Call.SetLinearVelocity self.m_entity v,
                Call.SetAngularVelocity self.m_entity
                  self.m_bodyConfiguration.m_initialAngularVelocity] ∧
            (∀ c ∈ (comReads transformFirst rb : List (Call R)),
              c = Call.GetTransform rb ∨ c = Call.GetCenterOfMassLocal rb)) := by
  obtain ⟨shapeCalls, hreq, -, hcalls, -⟩ := AddShapes_frame E self self.m_chunkIndices
    self.m_family.GetPxAsset self.m_physicsMaterialId w
  have hbase : spawnBaseCalls E self w = w.calls ++ shapeCalls ++
      [Call.Init self.m_entity, Call.Activate self.m_entity,
        Call.SetWorldTM self.m_entity self.spawnTransform] := by
    unfold spawnBaseCalls
    rw [hcalls]
  refine ⟨shapeCalls, ?_, hcalls, ?_, ?_⟩
  · intro c hc
    obtain ⟨subchunk, lib, rfl⟩ := hreq c hc
    exact ⟨_, _, rfl⟩
  · intro hs
    rw [Spawn_eq, if_pos hs]
    exact ⟨_, rfl, hbase⟩
  · intro hs rb hrb
    rw [← hbase] at hrb
    rw [Spawn_eq, if_neg (by simp [hs]), hrb]
    refine ⟨_, self.m_parentLinearVelocity +
      self.m_bodyConfiguration.m_initialAngularVelocity.Cross
        (spawnCentreOfMass E transformFirst self w rb - self.m_parentCenterOfMass), rfl, ?_, ?_⟩
    · simp only [spawnSetCalls, hbase, List.append_assoc, List.cons_append, List.nil_append]
    · intro c hc
      cases transformFirst <;> simp [comReads] at hc <;> tauto

/-- C8, witness: the static sample actor issues three shape requests and then `Init`,
`Activate`, `SetWorldTM` only; the non-static one goes on with the rigid body
requests and the two velocities. -/
theorem Spawn_velocities_only_when_not_static_witness :
    (∃ (shapeCalls : List (Call ℤ)) (w' : World ℤ),
      (sampleActor sampleAsset [0, 7, 2] true).Spawn sampleEnv false emptyWorld =
        Except.ok (((sampleActor sampleAsset [0, 7, 2] true).AddShapes sampleEnv [0, 7, 2]
          sampleAsset 9 emptyWorld).1, w') ∧
      w'.calls = shapeCalls ++
        [Call.Init 2, Call.Activate 2,
          Call.SetWorldTM 2 (sampleActor sampleAsset [0, 7, 2] true).spawnTransform]) ∧
    (∃ (shapeCalls : List (Call ℤ)) (w' : World ℤ) (v : Vector3 ℤ),
      (sampleActor sampleAsset [0, 7, 2] false).Spawn sampleEnv false emptyWorld =
        Except.ok (((sampleActor sampleAsset [0, 7, 2] false).AddShapes sampleEnv [0, 7, 2]
          sampleAsset 9 emptyWorld).1, w') ∧
      w'.calls = shapeCalls ++
        [Call.Init 2, Call.Activate 2,
          Call.SetWorldTM 2 (sampleActor sampleAsset [0, 7, 2] false).spawnTransform,
          Call.GetRigidBody 2,
          Call.SetTransform 102 (sampleActor sampleAsset [0, 7, 2] false).spawnTransform,
          Call.GetCenterOfMassLocal 102, Call.GetTransform 102,
          Call.SetLinearVelocity 2 v, Call.SetAngularVelocity 2 ⟨0, 0, 2⟩]) := by
  constructor
  · obtain ⟨shapeCalls, -, -, hstatic, -⟩ :=
      Spawn_velocities_only_when_not_static sampleEnv false
        (sampleActor sampleAsset [0, 7, 2] true) emptyWorld
    obtain ⟨w', h1, h2⟩ := hstatic rfl
    exact ⟨shapeCalls, w', h1, by simpa [emptyWorld] using h2⟩
  · obtain ⟨shapeCalls, -, -, -, hdynamic⟩ :=
      Spawn_velocities_only_when_not_static sampleEnv false
        (sampleActor sampleAsset [0, 7, 2] false) emptyWorld
    obtain ⟨w', v, h1, h2, -⟩ := hdynamic rfl 102 rfl
    exact ⟨shapeCalls, w', v, h1, by simpa [emptyWorld, comReads] using h2⟩

/-- C8, counterexample: the sample actor is not static, and in an environment where no
entity has a rigid body its `Spawn` ends in a fault at the unguarded dereference of
the rigid body pointer, for either order of the reads: no `SetLinearVelocity` and
no `SetAngularVelocity` request is issued. -/
theorem Spawn_without_rigid_body_counterexample :
    (sampleActor sampleAsset [0, 2] false).IsStatic = false ∧
    bodilessEnv.GetRigidBody
      (spawnBaseCalls bodilessEnv (sampleActor sampleAsset [0, 2] false) emptyWorld) 2 = none ∧
    (sampleActor sampleAsset [0, 2] false).Spawn bodilessEnv true emptyWorld =
      Except.error Fault.nullDereference ∧
    (sampleActor sampleAsset [0, 2] false).Spawn bodilessEnv false emptyWorld =
      Except.error Fault.nullDereference :=
  ⟨rfl, rfl,
    Spawn_null_rigid_body bodilessEnv true (sampleActor sampleAsset [0, 2] false) emptyWorld
      rfl rfl,
    Spawn_null_rigid_body bodilessEnv false (sampleActor sampleAsset [0, 2] false) emptyWorld
      rfl rfl⟩

/-- C5 (amended): for every subchunk for which `AddShapes` requests a shape, the position
and the rotation of the collider configuration passed to `CreateShape` are those of
the subchunk's own transform (the position of `PxMathConvert(subchunk.transform)`,
which is the subchunk's `p`, and the quaternion extracted from it); the actor's scale
travels apart, as the native shape scale of the shape configuration, and the position
and orientation of the body configuration do not enter the request. -/
theorem AddShapes_local_transform (E : Env R) (self : BlastActorImpl R)
    (chunkIndices : List Nat) (asset : ExtPxAsset R) (material : MaterialId) (w : World R)
    (pxChunks : Nat → ExtPxChunk) (pxSubchunks : Nat → ExtPxSubchunk R)
    (hChunks : asset.getChunks = some pxChunks)
    (hSubchunks : asset.getSubchunks = some pxSubchunks) :
    ∃ newCalls : List (Call R),
      (self.AddShapes E chunkIndices asset material w).2.calls = w.calls ++ newCalls ∧
      List.Forall₂
        (fun p c => ∃ cc sc, c = Call.CreateShape cc sc ∧
          cc.m_position = (PxMathConvert (pxSubchunks (pairIndex pxChunks p)).transform).GetPosition ∧
          cc.m_position = (pxSubchunks (pairIndex pxChunks p)).transform.p ∧
          cc.m_rotation = E.QuaternionCreateFromTransform
            (PxMathConvert (pxSubchunks (pairIndex pxChunks p)).transform) ∧
          sc.m_nativeShapeScale = self.m_bodyConfiguration.m_scale ∧
          sc.m_nativeShapePtr = (pxSubchunks (pairIndex pxChunks p)).geometry.convexMesh)
        (validPairs pxChunks asset.getChunkCount asset.getSubchunkCount chunkIndices)
        newCalls := by
  obtain ⟨newCalls, hreq, -, hcalls, -, -⟩ :=
    AddShapes_spec E self chunkIndices asset material w pxChunks pxSubchunks hChunks hSubchunks
  refine ⟨newCalls, hcalls, ?_⟩
  rw [List.forall₂_map_left_iff] at hreq
  refine hreq.imp ?_
  rintro p c ⟨lib, rfl⟩
  exact ⟨_, _, rfl, rfl, rfl, rfl, rfl, rfl⟩

/-- C5, witness: the request issued for the only subchunk of `singleAsset`. -/
theorem AddShapes_local_transform_witness :
    ∃ newCalls : List (Call ℤ),
      ((sampleActor singleAsset [0] false).AddShapes sampleEnv [0] singleAsset 9
        emptyWorld).2.calls = newCalls ∧
      List.Forall₂
        (fun p c => ∃ cc sc, c = Call.CreateShape cc sc ∧
          cc.m_position = (sampleSubchunk (1000 + p.2)).transform.p ∧
          sc.m_nativeShapeScale = ⟨1, 1, 1⟩)
        [(0, 0)] newCalls := by
  obtain ⟨newCalls, h1, h2⟩ :=
    AddShapes_local_transform sampleEnv (sampleActor singleAsset [0] false) [0] singleAsset 9
      emptyWorld _ _ rfl rfl
  refine ⟨newCalls, by simpa [emptyWorld] using h1, ?_⟩
  have h3 : validPairs (fun _ => (⟨0, 1, false⟩ : ExtPxChunk)) singleAsset.getChunkCount
      singleAsset.getSubchunkCount [0] = [(0, 0)] := by decide
  rw [h3] at h2
  refine h2.imp ?_
  rintro p c ⟨cc, sc, rfl, -, hp, -, hs, -⟩
  exact ⟨cc, sc, rfl, hp, hs⟩

/-- C5, counterexample: the sample actor's world transform has position `(1, 0, 0)`; the
only subchunk of `singleAsset` sits at the origin. The collider configuration passed
to `CreateShape` has position `(0, 0, 0)`, the subchunk's own, while the subchunk
transform composed with the actor's world transform and scale, in either order, has
position `(1, 0, 0)`. -/
theorem AddShapes_world_transform_counterexample :
    ((sampleActor singleAsset [0] false).AddShapes sampleEnv [0] singleAsset 9
        emptyWorld).2.calls = [Call.CreateShape sampleRequest.1 sampleRequest.2] ∧
    sampleRequest.1.m_position = ⟨0, 0, 0⟩ ∧
    ((sampleActor singleAsset [0] false).spawnTransform.compose
        (PxMathConvert (sampleSubchunk 1000).transform)).GetPosition = ⟨1, 0, 0⟩ ∧
    ((PxMathConvert (sampleSubchunk 1000).transform).compose
        (sampleActor singleAsset [0] false).spawnTransform).GetPosition = ⟨1, 0, 0⟩ ∧
    sampleRequest.1.m_position ≠
      ((sampleActor singleAsset [0] false).spawnTransform.compose
        (PxMathConvert (sampleSubchunk 1000).transform)).GetPosition := by
  decide

/-- C6: the collider configuration returned by `CalculateColliderConfiguration` takes its
collision layer, collision group, scene-query flag, simulation flag and tag from the
actor configuration of the owning family, unchanged, and its material id is the
material id passed in the call; and every request `AddShapes` issues in one call, on
any asset, is a `CreateShape` request carrying these same six values. -/
theorem CalculateColliderConfiguration_family_settings (E : Env R) (self : BlastActorImpl R)
    (w : World R) (transform : Transform R) (material : MaterialId)
    (chunkIndices : List Nat) (asset : ExtPxAsset R) :
    ((self.CalculateColliderConfiguration E w transform material).m_collisionLayer =
        self.GetFamily.GetActorConfiguration.m_collisionLayer ∧
      (self.CalculateColliderConfiguration E w transform material).m_collisionGroupId =
        self.GetFamily.GetActorConfiguration.m_collisionGroupId ∧
      (self.CalculateColliderConfiguration E w transform material).m_isInSceneQueries =
        self.GetFamily.GetActorConfiguration.m_isInSceneQueries ∧
      (self.CalculateColliderConfiguration E w transform material).m_isSimulated =
        self.GetFamily.GetActorConfiguration.m_isSimulated ∧
      (self.CalculateColliderConfiguration E w transform material).m_tag =
        self.GetFamily.GetActorConfiguration.m_tag ∧
      (self.CalculateColliderConfiguration E w transform material).m_materialSelection.m_materialId
        = material) ∧
    ∃ newCalls : List (Call R),
      (self.AddShapes E chunkIndices asset material w).2.calls = w.calls ++ newCalls ∧
      ∀ c ∈ newCalls, ∃ cc sc, c = Call.CreateShape cc sc ∧
        cc.m_collisionLayer = self.GetFamily.GetActorConfiguration.m_collisionLayer ∧
        cc.m_collisionGroupId = self.GetFamily.GetActorConfiguration.m_collisionGroupId ∧
        cc.m_isInSceneQueries = self.GetFamily.GetActorConfiguration.m_isInSceneQueries ∧
        cc.m_isSimulated = self.GetFamily.GetActorConfiguration.m_isSimulated ∧
        cc.m_tag = self.GetFamily.GetActorConfiguration.m_tag ∧
        cc.m_materialSelection.m_materialId = material := by
  refine ⟨⟨rfl, rfl, rfl, rfl, rfl, rfl⟩, ?_⟩
  obtain ⟨newCalls, hreq, -, hcalls, -⟩ :=
    AddShapes_frame E self chunkIndices asset material w
  refine ⟨newCalls, hcalls, ?_⟩
  intro c hc
  obtain ⟨subchunk, lib, rfl⟩ := hreq c hc
  exact ⟨_, _, rfl, rfl, rfl, rfl, rfl, rfl, rfl⟩

/-- C10: `AddShapes` is safe on inconsistent asset data. On every asset and every list of
chunk indices, every index at which it reads the chunk array is below `chunkCount` and
every index at which it reads the subchunk array is below `subchunkCount`; and when
either array is null it reads nothing, issues no request and leaves the actor, hence
the shape collection, as it was. -/
theorem AddShapes_reads_in_bounds (E : Env R) (self : BlastActorImpl R)
    (chunkIndices : List Nat) (asset : ExtPxAsset R) (material : MaterialId) (w : World R) :
    ∃ newReads : List Read,
      (self.AddShapes E chunkIndices asset material w).2.reads = w.reads ++ newReads ∧
      (∀ i, Read.chunk i ∈ newReads → i < asset.getChunkCount) ∧
      (∀ j, Read.subchunk j ∈ newReads → j < asset.getSubchunkCount) ∧
      ((asset.getChunks = none ∨ asset.getSubchunks = none) →
        newReads = [] ∧
        (self.AddShapes E chunkIndices asset material w).2.calls = w.calls ∧
        (self.AddShapes E chunkIndices asset material w).1 = self) := by
  cases hChunks : asset.getChunks with
  | none =>
    obtain ⟨h1, h2, h3, -⟩ := AddShapes_null E self chunkIndices asset material w (Or.inl hChunks)
    exact ⟨[], by simp [h3], by simp, by simp, fun _ => ⟨rfl, h2, h1⟩⟩
  | some pxChunks =>
    cases hSubchunks : asset.getSubchunks with
    | none =>
      obtain ⟨h1, h2, h3, -⟩ :=
        AddShapes_null E self chunkIndices asset material w (Or.inr hSubchunks)
      exact ⟨[], by simp [h3], by simp, by simp, fun _ => ⟨rfl, h2, h1⟩⟩
    | some pxSubchunks =>
      obtain ⟨-, -, -, -, hreads, -⟩ :=
        AddShapes_spec E self chunkIndices asset material w pxChunks pxSubchunks hChunks
          hSubchunks
      refine ⟨_, hreads, ?_, ?_, ?_⟩
      · exact fun i hi => (mem_expectedReads_chunk pxChunks _ _ chunkIndices i hi).2
      · exact fun j hj => mem_expectedReads_subchunk pxChunks _ _ chunkIndices j hj
      · intro h
        simp at h

/-- C10, witness: on the overflowing asset the reads are chunk 0 and subchunk 0 only; on
the asset with a null chunk array nothing is read and nothing is appended. -/
theorem AddShapes_reads_in_bounds_witness :
    ((sampleActor overflowAsset [0, 3] false).AddShapes sampleEnv [0, 3] overflowAsset 9
        emptyWorld).2.reads = [Read.chunk 0, Read.subchunk 0] ∧
    ((sampleActor nullAsset [0, 1] false).AddShapes sampleEnv [0, 1] nullAsset 9
        emptyWorld).2.reads = [] ∧
    ((sampleActor nullAsset [0, 1] false).AddShapes sampleEnv [0, 1] nullAsset 9
        emptyWorld).1.m_shapesProvider.m_shapes = [] := by
  obtain ⟨newReads, h1, -, -, h4⟩ :=
    AddShapes_reads_in_bounds sampleEnv (sampleActor nullAsset [0, 1] false) [0, 1] nullAsset 9
      emptyWorld
  obtain ⟨h5, -, h7⟩ := h4 (Or.inl rfl)
  refine ⟨by decide, ?_, ?_⟩
  · rw [h1, h5]; rfl
  · rw [h7]; rfl


/-- C9: the user-data slot of a toolkit actor never dangles. Constructing an actor on a
toolkit actor sets that slot to the address of the new actor; `AddShapes`, `Spawn`,
`Damage` and the accessors that touch the world leave every slot as it was;
destroying an actor clears the slot of its toolkit actor, whatever it held; and in
every state reached from the start by constructing, using and destroying actors,
a slot is either empty or holds the address of a live actor built on that toolkit
actor. -/
theorem userData_never_dangles (E : Env R) :
    (∀ (this : Nat) (desc : BlastActorDesc R) (w : World R),
      (BlastActorImpl.construct this desc w).2.userData desc.m_tkActor = some this ∧
      (BlastActorImpl.construct this desc w).1.GetTkActor = desc.m_tkActor) ∧
    (∀ (self : BlastActorImpl R) (chunkIndices : List Nat) (asset : ExtPxAsset R)
        (material : MaterialId) (w : World R),
      (self.AddShapes E chunkIndices asset material w).2.userData = w.userData) ∧
    (∀ (self : BlastActorImpl R) (transformFirst : Bool) (w : World R)
        (r : BlastActorImpl R × World R),
      self.Spawn E transformFirst w = Except.ok r → r.2.userData = w.userData) ∧
    (∀ (self : BlastActorImpl R) (program : NvBlastDamageProgram) (programParams : Nat)
        (w : World R),
      (self.Damage program programParams w).2.userData = w.userData) ∧
    (∀ (self : BlastActorImpl R) (w : World R),
      (self.GetWorldBody E w).2.userData = w.userData) ∧
    (∀ (self : BlastActorImpl R) (w : World R) (r : Transform R × World R),
      self.GetTransform E w = Except.ok r → r.2.userData = w.userData) ∧
    (∀ (self : BlastActorImpl R) (w : World R),
      (self.destruct w).userData self.GetTkActor = none) ∧
    (∀ (ops : List (Op R)) (s : System R),
      System.run E System.init ops = some s → s.NoDangling) := by
  refine ⟨?_, ?_, ?_, ?_, ?_, ?_, ?_, ?_⟩
  · intro this desc w
    exact ⟨by simp [BlastActorImpl.construct], rfl⟩
  · intro self chunkIndices asset material w
    obtain ⟨_, -, -, -, hud⟩ := AddShapes_frame E self chunkIndices asset material w
    exact hud
  · intro self transformFirst w r h
    exact (Spawn_frame E transformFirst self w r h).2
  · intro self program programParams w
    rfl
  · intro self w
    rfl
  · intro self w r h
    unfold BlastActorImpl.GetTransform BlastActorImpl.GetWorldBody at h
    simp only at h
    split at h
    · cases h
    · cases h
      rfl
  · intro self w
    simp [BlastActorImpl.destruct, BlastActorImpl.GetTkActor]
  · intro ops s h
    refine run_NoDangling E ops System.init s ?_ h
    intro tkActor p hp
    simp [System.init] at hp

/-- C9, witness: two actors on toolkit actor 1, the second constructed while the first
lives and then destroyed; the run succeeds and ends with every slot sound, the slot
of toolkit actor 1 being empty while the first actor still lives. -/
theorem userData_never_dangles_witness :
    ∃ s : System ℤ, System.run sampleEnv System.init sampleOps = some s ∧ s.NoDangling ∧
      s.world.userData 1 = none ∧ (s.heap 50).isSome = true ∧ (s.heap 60).isSome = false :=
  ⟨_, rfl, (userData_never_dangles sampleEnv).2.2.2.2.2.2.2 sampleOps _ rfl, by decide,
    by decide, by decide⟩


/-- C2, witness: with `chunkCount = 3` the list `[0, 7, 2]` yields three requests and the
shapes `[some 0, some 1, some 2]` (two for chunk 0, one for chunk 2, which stands
after the out-of-range entry 7), the same as the list `[0, 2]`. -/
theorem AddShapes_skips_out_of_range_chunks_witness :
    ∃ newCalls : List (Call ℤ),
      newCalls.length = 3 ∧
      ((sampleActor sampleAsset [0, 7, 2] false).AddShapes sampleEnv [0, 7, 2] sampleAsset 9
        emptyWorld).2.calls = newCalls ∧
      ((sampleActor sampleAsset [0, 7, 2] false).AddShapes sampleEnv [0, 2] sampleAsset 9
        emptyWorld).2.calls = newCalls ∧
      ((sampleActor sampleAsset [0, 7, 2] false).AddShapes sampleEnv [0, 7, 2] sampleAsset 9
        emptyWorld).1.m_shapesProvider.m_shapes = [some 0, some 1, some 2] ∧
      ((sampleActor sampleAsset [0, 7, 2] false).AddShapes sampleEnv [0, 2] sampleAsset 9
        emptyWorld).1.m_shapesProvider.m_shapes = [some 0, some 1, some 2] := by
  obtain ⟨newCalls, hreq, -, -, hcalls, -, -, -, -, -, -, hsame, -, -⟩ :=
    AddShapes_skips_out_of_range_chunks sampleEnv (sampleActor sampleAsset [0, 7, 2] false)
      [0, 7, 2] sampleAsset 9 emptyWorld _ _ rfl rfl
  refine ⟨newCalls, ?_, by simpa [emptyWorld] using hcalls, ?_, by decide, by decide⟩
  · rw [← hreq.length_eq]
    decide
  · have h : ((sampleActor sampleAsset [0, 7, 2] false).AddShapes sampleEnv [0, 2] sampleAsset 9
        emptyWorld).2.calls =
        ((sampleActor sampleAsset [0, 7, 2] false).AddShapes sampleEnv [0, 7, 2] sampleAsset 9
        emptyWorld).2.calls := hsame
    rw [h]
    simpa [emptyWorld] using hcalls

/-- C6, witness: the sample family has layer 3, group 4, is simulated, is not in scene
queries and is tagged "debris"; called with material id 5, the configuration carries
these and material id 5, not the actor's own material id 9. -/
theorem CalculateColliderConfiguration_family_settings_witness :
    ((sampleActor singleAsset [0] false).CalculateColliderConfiguration sampleEnv emptyWorld
        (PxMathConvert (sampleSubchunk 1000).transform) 5).m_collisionLayer = 3 ∧
    ((sampleActor singleAsset [0] false).CalculateColliderConfiguration sampleEnv emptyWorld
        (PxMathConvert (sampleSubchunk 1000).transform) 5).m_materialSelection.m_materialId = 5 ∧
    ∃ newCalls : List (Call ℤ),
      ((sampleActor singleAsset [0] false).AddShapes sampleEnv [0] singleAsset 5
        emptyWorld).2.calls = newCalls ∧
      ∀ c ∈ newCalls, ∃ cc sc, c = Call.CreateShape cc sc ∧ cc.m_collisionLayer = 3 ∧
        cc.m_collisionGroupId = 4 ∧ cc.m_isInSceneQueries = false ∧ cc.m_isSimulated = true ∧
        cc.m_tag = "debris" ∧ cc.m_materialSelection.m_materialId = 5 := by
  obtain ⟨⟨h1, -, -, -, -, h6⟩, newCalls, hcalls, hall⟩ :=
    CalculateColliderConfiguration_family_settings sampleEnv (sampleActor singleAsset [0] false)
      emptyWorld (PxMathConvert (sampleSubchunk 1000).transform) 5 [0] singleAsset
  exact ⟨h1, h6, newCalls, by simpa [emptyWorld] using hcalls, hall⟩

end Claims

/-- C7: `Damage` forwards the program and the parameters once to the actor's own
toolkit actor and changes nothing else: one `damage` request is added to the requests
issued, the actor object is unchanged (so the chunk index set, the static flag, the
family and the shape collection read as before), and so are the asset reads and the
user-data slots. -/
theorem Damage_forwards_once {R : Type} (self : BlastActorImpl R) (program : NvBlastDamageProgram)
    (programParams : Nat) (w : World R) :
    (self.Damage program programParams w).2.calls =
      w.calls ++ [Call.damage self.GetTkActor program programParams] ∧
    (self.Damage program programParams w).1 = self ∧
    (self.Damage program programParams w).1.GetChunkIndices = self.GetChunkIndices ∧
    (self.Damage program programParams w).1.IsStatic = self.IsStatic ∧
    (self.Damage program programParams w).1.GetFamily = self.GetFamily ∧
    (self.Damage program programParams w).1.m_shapesProvider = self.m_shapesProvider ∧
    (self.Damage program programParams w).2.reads = w.reads ∧
    (self.Damage program programParams w).2.asserts = w.asserts ∧
    (self.Damage program programParams w).2.userData = w.userData :=
  ⟨rfl, rfl, rfl, rfl, rfl, rfl, rfl, rfl, rfl⟩

end Blast
